import Mathlib

/-!
Verification of the Incus Ansible collection's reconciliation modules.

This file shallowly embeds the reconciliation logic of the modules
`incus_instance`, `incus_config`, `incus_profile`, `incus_storage` and
`incus_network_forward` (files under `plugins/modules/`) and proves or
refutes the frozen specification claims about them.

Modelling conventions, used throughout:

* A sub-command invocation is its argument vector, a `List String`.  A run
  of a module is a pair of the trace of all argument vectors handed to the
  command layer (in order) and the terminal outcome (`exit_json`,
  `fail_json`, or plain return).
* Python dicts are association lists in insertion order; `aget` is
  `dict.get`, `dset` is `d[k] = v` (update in place, else append), which
  matches Python's insertion-ordered dict semantics.
* Python scalars appearing as parameter values are `PVal`; `pstr` is
  Python's `str()` on them (`str(True) = "True"`, `str(None) = "None"`).
* The external system is a memoryless oracle (`rc`/`out`/`err` of each
  argument vector, plus the decoded result of each existence/show query).
  Every scenario verified below either issues no mutating command between
  two queries or issues none whose effect a later query of the same run
  observes, so the memoryless oracle yields the same traces and outcomes
  as a stateful external system would.
* `exit_json`/`fail_json` terminate the module; they are modelled as the
  error channel of the `Res` monad, so code after them is unreachable,
  exactly as in Python.  Extra payload fields of `exit_json`
  (`instance=...`, `state=...`) are derived from already-traced read
  queries and are not part of the modelled outcome.
-/

namespace Incus

/-- A Python scalar parameter value. -/
inductive PVal where
  | vstr (s : String)
  | vint (n : Int)
  | vbool (b : Bool)
  | vnone
deriving DecidableEq, Repr

/-- Python `str()` on a scalar value. -/
def pstr : PVal → String
  | .vstr s => s
  | .vint n => toString n
  | .vbool b => if b then "True" else "False"
  | .vnone => "None"

/-- Python truthiness of a scalar value. -/
def ptruthy : PVal → Bool
  | .vstr s => s ≠ ""
  | .vint n => n ≠ 0
  | .vbool b => b
  | .vnone => false

/-- A string-valued Python dict (e.g. a decoded `config` mapping). -/
abbrev Dict := List (String × String)

/-- `d.get(k)` on an association list. -/
def aget {α : Type} (d : List (String × α)) (k : String) : Option α :=
  (d.find? (fun kv => kv.1 = k)).map (fun kv => kv.2)

/-- `d[k] = v` on an association list: replace in place, else append
(Python's insertion-ordered dict assignment). -/
def dset {α : Type} (d : List (String × α)) (k : String) (v : α) :
    List (String × α) :=
  if d.any (fun kv => kv.1 = k) then
    d.map (fun kv => if kv.1 = k then (k, v) else kv)
  else d ++ [(k, v)]

/-- Python dict equality (order-insensitive key/value comparison). -/
def dicteq {α : Type} [DecidableEq α] (a b : List (String × α)) : Bool :=
  a.all (fun kv => aget b kv.1 = some kv.2) &&
    b.all (fun kv => aget a kv.1 = some kv.2)

/-- Truthiness of an optional string parameter (`None` and `""` are falsy). -/
def strTruthy : Option String → Bool
  | some s => s ≠ ""
  | none => false

/-- Break a character list at its first colon. -/
def breakAtColon : List Char → Option (List Char × List Char)
  | [] => none
  | a :: rest =>
      if a = ':' then some ([], rest)
      else match breakAtColon rest with
        | some br => some (a :: br.1, br.2)
        | none => none

/-- Python `s.split(':', 1)` on a string containing a colon: the part
before the first colon and the rest (identity-with-empty-rest
otherwise). -/
def splitColon (s : String) : String × String :=
  match breakAtColon s.data with
  | some br => (⟨br.1⟩, ⟨br.2⟩)
  | none => (s, "")

/-- Python `c in s` on a character. -/
def hasChar (s : String) (c : Char) : Bool := s.data.contains c

/-- Python `s.lower()` (ASCII case folding, as in the matched phrases). -/
def strLower (s : String) : String := ⟨s.data.map Char.toLower⟩

/-- Substring search over character lists. -/
def containsSubAux (pat : List Char) : List Char → Bool
  | [] => pat.isPrefixOf []
  | a :: rest => pat.isPrefixOf (a :: rest) || containsSubAux pat rest

/-- Python `pat in s` (substring test). -/
def containsSub (s pat : String) : Bool := containsSubAux pat.data s.data

/-- Code-point lexicographic comparison of character lists. -/
def lexLt : List Char → List Char → Bool
  | [], [] => false
  | [], _ :: _ => true
  | _ :: _, [] => false
  | a :: as, b :: bs => if a < b then true else if b < a then false else lexLt as bs

/-- Python `<` on strings (code-point lexicographic). -/
def strLt (a b : String) : Bool := lexLt a.data b.data

/-- A traced sub-command invocation: its full argument vector. -/
abbrev Cmd := List String

/-- The trace of sub-command invocations issued by one module run. -/
abbrev Trace := List Cmd

/-- Terminal result of a module run: `exit_json(changed=..., msg=...)`,
`fail_json(msg=...)`, or falling off the end of `run()` without either. -/
inductive Outcome where
  | exit (changed : Bool) (msg : Option String)
  | fail (msg : String)
  | ret
deriving DecidableEq, Repr

/-- Equality of fallible results is decidable. -/
instance exceptDecEq {ε α : Type} [DecidableEq ε] [DecidableEq α] :
    DecidableEq (Except ε α)
  | .ok a, .ok b =>
      if h : a = b then .isTrue (by rw [h]) else .isFalse (by simp [h])
  | .ok _, .error _ => .isFalse (by simp)
  | .error _, .ok _ => .isFalse (by simp)
  | .error a, .error b =>
      if h : a = b then .isTrue (by rw [h]) else .isFalse (by simp [h])

/-- Computation of a module: the commands issued so far together with
either a value or the terminal outcome (`exit_json`/`fail_json` abort). -/
abbrev Res (α : Type) : Type := Trace × Except Outcome α

/-- Sequencing of module computations: concatenate traces, short-circuit
on a terminal outcome. -/
def Res.bind {α β : Type} (r : Res α) (f : α → Res β) : Res β :=
  match r with
  | (t, .error o) => (t, .error o)
  | (t, .ok a) => (t ++ (f a).1, (f a).2)

/-- A value with no commands issued. -/
def Res.pure {α : Type} (a : α) : Res α := ([], .ok a)

instance : Monad Res where
  pure := Res.pure
  bind := Res.bind

/-- Record one sub-command invocation. -/
def emit (c : Cmd) : Res Unit := ([c], .ok ())

/-- `exit_json(changed=..., msg=...)`. -/
def exitJ {α : Type} (changed : Bool) (msg : Option String) : Res α :=
  ([], .error (.exit changed msg))

/-- `fail_json(msg=...)`. -/
def failJ {α : Type} (m : String) : Res α := ([], .error (.fail m))

/-- Extract the trace and outcome of a completed `run()`. -/
def finishRun (r : Res Unit) : Trace × Outcome :=
  match r with
  | (t, .error o) => (t, o)
  | (t, .ok _) => (t, .ret)

/-- Drop a leading `--project <name>` pair from the arguments after the
binary, recovering the sub-command verb. -/
def stripProj : List String → List String
  | "--project" :: _ :: rest => rest
  | l => l

/-- The sub-command (after binary path and any `--project` pair). -/
def cmdArgs (c : Cmd) : List String := stripProj (c.drop 1)

/-- Read-only sub-commands: existence checks, shows, lists, queries. -/
def isReadOnly (c : Cmd) : Bool :=
  match cmdArgs c with
  | "list" :: _ => true
  | "query" :: _ => true
  | "info" :: _ => true
  | "config" :: "show" :: _ => true
  | "profile" :: "show" :: _ => true
  | "storage" :: "show" :: _ => true
  | "network" :: "forward" :: "show" :: _ => true
  | _ => false

/-- A mutating sub-command: anything that is not a read-only verb. -/
def isMutating (c : Cmd) : Bool := !(isReadOnly c)

/-- A rename operation: `incus move` (instances) or
`incus profile rename` (profiles). -/
def isRenameCmd (c : Cmd) : Bool :=
  match cmdArgs c with
  | "move" :: _ => true
  | "profile" :: "rename" :: _ => true
  | _ => false

/-- A `config device remove` operation. -/
def isDeviceRemove (c : Cmd) : Bool :=
  match cmdArgs c with
  | "config" :: "device" :: "remove" :: _ => true
  | _ => false

/-- A `config device add` operation. -/
def isDeviceAdd (c : Cmd) : Bool :=
  match cmdArgs c with
  | "config" :: "device" :: "add" :: _ => true
  | _ => false

/-- Stable insertion of `a` into a list sorted by the string key `key`,
placing `a` after strictly smaller keys and before equal or larger
ones (Python's stable `sorted`). -/
def insertByKey {α : Type} (key : α → String) (a : α) : List α → List α
  | [] => [a]
  | b :: bs =>
      if strLt (key b) (key a) then b :: insertByKey key a bs
      else a :: b :: bs

/-- Python's stable `sorted(xs, key=...)` with a string key. -/
def sortByKey {α : Type} (key : α → String) : List α → List α
  | [] => []
  | a :: as => insertByKey key a (sortByKey key as)

/-- Python `sorted` on a list of strings. -/
def sortStr (l : List String) : List String := sortByKey id l

/-- Exit codes, stdout and stderr of the external client, as a memoryless
oracle over argument vectors. -/
structure CmdEnv where
  rc : Cmd → Int
  out : Cmd → String
  err : Cmd → String

/-- The argument-vector builder shared verbatim by `run_incus` of
`incus_storage`, `incus_profile` and `incus_network_forward`:
`['incus']`, then `--project <p>` whenever the project is truthy
(including the default project), then the sub-command arguments. -/
def svcCmd (project : String) (args : List String) : Cmd :=
  "incus" :: ((if project ≠ "" then ["--project", project] else []) ++ args)

end Incus

namespace IncusConfig

/-!  Embedding of `plugins/modules/incus_config.py` (`IncusConfig`). -/

open Incus

/-- The `config`/`devices` parameters are `type: raw`: a dict, or (for
`state=absent`) a list of keys. -/
inductive RawCfg where
  | dict (d : List (String × PVal))
  | listKeys (ks : List String)
deriving DecidableEq, Repr

/-- Raw `devices` parameter: a dict of device-name to attribute dict, or a
list of device names. -/
inductive RawDev where
  | dict (d : List (String × List (String × PVal)))
  | listKeys (ks : List String)
deriving DecidableEq, Repr

/-- Module parameters of `incus_config` (after `AnsibleModule` parsing),
plus the module-level check-mode flag. -/
structure Params where
  instance_name : String
  remote : Option String := none
  state : String := "present"
  config : Option RawCfg := none
  devices : Option RawDev := none
  check_mode : Bool := false

/-- `self.name`: the remote-qualified instance name. -/
def Params.name (p : Params) : String :=
  if strTruthy p.remote then p.remote.getD "" ++ ":" ++ p.instance_name
  else p.instance_name

/-- The decoded output of `incus config show <name>` (the fields the
module reads; `.get(..., {})` defaults are folded into the defaults). -/
structure ShowData where
  config : Dict := []
  devices : List (String × Dict) := []
deriving DecidableEq, Repr

/-- `self.config` normalized to a key-to-value dict: a list of keys (only
meaningful with `state=absent`) becomes `{k: None}`; a dict is kept; any
other shape is a fatal parameter error.  Mirrors the head of
`process_config`. -/
def targetConfig (p : Params) : Res (List (String × PVal)) :=
  match p.config with
  | some (.listKeys ks) =>
      if p.state = "absent" then Res.pure (ks.map (fun k => (k, PVal.vnone)))
      else failJ "'config' must be a dict or list (for absent)"
  | some (.dict d) => Res.pure d
  | none => Res.pure []

/-- The per-key loop of `process_config`: emit `config set` (present) or
`config unset` (absent) for keys that differ resp. exist, skipping command
execution in check mode but still reporting `changed`. -/
def processConfigLoop (p : Params) (env : CmdEnv) (localConfig : Dict) :
    List (String × PVal) → Res Bool
  | [] => Res.pure false
  | (key, value) :: rest => do
      let restCh ←
        if p.state = "present" then do
          let valStr := pstr value
          if aget localConfig key ≠ some valStr then do
            if p.check_mode then Res.pure ()
            else do
              let cmd := ["incus", "config", "set", p.name, key, valStr]
              emit cmd
              if env.rc cmd ≠ 0 then failJ "Command execution failed"
              else Res.pure ()
            let _ ← processConfigLoop p env localConfig rest
            Res.pure true
          else processConfigLoop p env localConfig rest
        else if p.state = "absent" then
          if (aget localConfig key).isSome then do
            if p.check_mode then Res.pure ()
            else do
              let cmd := ["incus", "config", "unset", p.name, key]
              emit cmd
              if env.rc cmd ≠ 0 then failJ "Command execution failed"
              else Res.pure ()
            let _ ← processConfigLoop p env localConfig rest
            Res.pure true
          else processConfigLoop p env localConfig rest
        else processConfigLoop p env localConfig rest
      Res.pure restCh

/-- `IncusConfig.process_config(current_config)`. -/
def process_config (p : Params) (env : CmdEnv) (currentInfo : ShowData) :
    Res Bool :=
  match p.config with
  | none => Res.pure false
  | some _ => do
      let tgt ← targetConfig p
      processConfigLoop p env currentInfo.config tgt

/-- `self.devices` normalized to a dict (list form becomes `{k: {}}`,
only meaningful with `state=absent`). -/
def targetDevices (p : Params) : Res (List (String × List (String × PVal))) :=
  match p.devices with
  | some (.listKeys ks) =>
      if p.state = "absent" then Res.pure (ks.map (fun k => (k, [])))
      else failJ "'devices' must be a dict or list (for absent)"
  | some (.dict d) => Res.pure d
  | none => Res.pure []

/-- Attribute loop over an existing device (inner loop of
`process_devices`): `type` is skipped, every other attribute is
stringified and `config device set` on mismatch. -/
def devAttrLoop (p : Params) (env : CmdEnv) (devName : String)
    (currentDevConf : Dict) : List (String × PVal) → Res Bool
  | [] => Res.pure false
  | (k, v) :: restA => do
      let here ←
        if k = "type" then Res.pure false
        else
          let valStr := pstr v
          if aget currentDevConf k ≠ some valStr then do
            if p.check_mode then Res.pure true
            else do
              let cmd := ["incus", "config", "device", "set", p.name,
                devName, k ++ "=" ++ valStr]
              emit cmd
              if env.rc cmd ≠ 0 then failJ "Command execution failed"
              else Res.pure true
          else Res.pure false
      let restCh ← devAttrLoop p env devName currentDevConf restA
      Res.pure (here || restCh)

/-- The per-device loop of `process_devices`: with `state=present`, a
device absent from the current state is added (requiring `type`), a device
present in both has each non-`type` attribute string-compared and set on
difference; with `state=absent`, listed devices that exist are removed.
Devices present in the current state but unmentioned are never touched. -/
def processDevicesLoop (p : Params) (env : CmdEnv)
    (localDevices : List (String × Dict)) :
    List (String × List (String × PVal)) → Res Bool
  | [] => Res.pure false
  | (devName, devConf) :: rest => do
      let here ←
        if p.state = "present" then
          match aget localDevices devName with
          | none =>
              match aget devConf "type" with
              | none => failJ ("Device '" ++ devName ++
                  "' missing required 'type' for creation")
              | some ty =>
                  if !(ptruthy ty) then
                    failJ ("Device '" ++ devName ++
                      "' missing required 'type' for creation")
                  else do
                    if p.check_mode then Res.pure true
                    else do
                      let cmd := ["incus", "config", "device", "add", p.name,
                          devName, pstr ty] ++
                        ((devConf.filter (fun kv => kv.1 ≠ "type")).map
                          (fun kv => kv.1 ++ "=" ++ pstr kv.2))
                      emit cmd
                      if env.rc cmd ≠ 0 then failJ "Command execution failed"
                      else Res.pure true
          | some currentDevConf =>
              devAttrLoop p env devName currentDevConf devConf
        else if p.state = "absent" then
          if (aget localDevices devName).isSome then do
            if p.check_mode then Res.pure true
            else do
              let cmd := ["incus", "config", "device", "remove", p.name, devName]
              emit cmd
              if env.rc cmd ≠ 0 then failJ "Command execution failed"
              else Res.pure true
          else Res.pure false
        else Res.pure false
      let restCh ← processDevicesLoop p env localDevices rest
      Res.pure (here || restCh)

/-- `IncusConfig.process_devices(current_info)`. -/
def process_devices (p : Params) (env : CmdEnv) (currentInfo : ShowData) :
    Res Bool :=
  match p.devices with
  | none => Res.pure false
  | some _ => do
      let tgt ← targetDevices p
      processDevicesLoop p env currentInfo.devices tgt

end IncusConfig

namespace IncusInstance

/-!  Embedding of `plugins/modules/incus_instance.py` (`IncusInstance`). -/

open Incus

/-- `module.get_bin_path('incus', required=True)`: the resolved client
binary path, modelled by the binary's name. -/
def incusBin : String := "incus"

/-- The fields of a decoded `incus list --format=json` entry that the
module reads. -/
structure InstanceInfo where
  status : String
  config : Dict := []
  devices : List (String × Dict) := []
  profiles : List String := []
deriving DecidableEq, Repr

/-- Module parameters of `incus_instance` (after `AnsibleModule` parsing;
defaults as in `argument_spec`), plus the module-level check-mode flag. -/
structure Params where
  name_param : String
  rename_from : Option String := none
  remote : Option String := some "local"
  remote_image : Option String := none
  state : String := "present"
  started : Bool := false
  force : Bool := false
  vm : Bool := false
  ephemeral : Bool := false
  empty : Bool := false
  profiles : Option (List String) := none
  no_profiles : Bool := false
  config : List (String × PVal) := []
  devices : List (String × List (String × PVal)) := []
  storage : Option String := none
  network : Option String := none
  target : Option String := none
  description : Option String := none
  timeout : Option Int := none
  rebuild_image : Option String := none
  project : String := "default"
  cloud_init_user_data : Option String := none
  cloud_init_network_config : Option String := none
  cloud_init_vendor_data : Option String := none
  cloud_init_disk : Bool := false
  tags : List (String × PVal) := []
  check_mode : Bool := false

/-- `self.name` as set in `__init__`: remote-qualified when `remote` is
truthy (the parameter defaults to `'local'`, so normally qualified). -/
def Params.selfName (p : Params) : String :=
  if strTruthy p.remote then p.remote.getD "" ++ ":" ++ p.name_param
  else p.name_param

/-- `self.config` after `__init__` merges `tags` (as `user.<k>` keys) and
the truthy cloud-init payloads into the `config` parameter. -/
def Params.effConfig (p : Params) : List (String × PVal) :=
  let c := p.tags.foldl (fun acc kv => dset acc ("user." ++ kv.1) kv.2) p.config
  let c := if strTruthy p.cloud_init_user_data then
      dset c "cloud-init.user-data" (.vstr (p.cloud_init_user_data.getD ""))
    else c
  let c := if strTruthy p.cloud_init_network_config then
      dset c "cloud-init.network-config" (.vstr (p.cloud_init_network_config.getD ""))
    else c
  if strTruthy p.cloud_init_vendor_data then
    dset c "cloud-init.vendor-data" (.vstr (p.cloud_init_vendor_data.getD ""))
  else c

/-- `self.devices` after `__init__` adds the `cloud-init` disk device when
`cloud_init_disk` is set and no such device was supplied. -/
def Params.effDevices (p : Params) : List (String × List (String × PVal)) :=
  if p.cloud_init_disk ∧ aget p.devices "cloud-init" = none then
    p.devices ++ [("cloud-init",
      [("type", .vstr "disk"), ("source", .vstr "cloud-init:config")])]
  else p.devices

/-- The external system as observed by this module: the decoded `list`
query result per queried identity, the decoded `/state` query result per
query path, and the exit-code oracle. -/
structure Env where
  instances : List (String × InstanceInfo)
  stateOf : String → Option String
  ce : CmdEnv

/-- The `--project` insertion of `IncusInstance._run_command`: inserted at
index 1 only when the project is truthy, differs from `'default'`, and the
vector does not already contain the flag. -/
def instProject (project : String) (cmd : Cmd) : Cmd :=
  if project ≠ "" ∧ project ≠ "default" ∧ "--project" ∉ cmd then
    cmd.take 1 ++ "--project" :: project :: cmd.drop 1
  else cmd

/-- `IncusInstance._run_command`: insert the project flag, invoke, and
fail the module on a non-zero exit when `check_rc` is set. -/
def run_command (p : Params) (env : Env) (cmd : Cmd) (check_rc : Bool) :
    Res Int := do
  let c := instProject p.project cmd
  emit c
  let rc := env.ce.rc c
  if check_rc ∧ rc ≠ 0 then failJ "Command execution failed"
  else Res.pure rc

/-- The `(prefix, instance_name)` pair computed at the head of
`get_instance_info(name=None)`: split a qualified name at its first
colon; otherwise qualify by the truthy `remote` (unconditionally for the
instance's own name, and again for an explicit unqualified `name`
argument). -/
def queryParts (p : Params) (nameArg : Option String) : String × String :=
  let instName0 := if strTruthy nameArg then nameArg.getD "" else p.selfName
  let fstSplit :=
    if hasChar instName0 ':' then
      let sp := splitColon instName0
      (sp.1 ++ ":", sp.2)
    else if !(strTruthy nameArg) ∧ strTruthy p.remote then
      (p.remote.getD "" ++ ":", instName0)
    else ("", instName0)
  let pfx :=
    if strTruthy nameArg ∧ hasChar (nameArg.getD "") ':' then fstSplit.1
    else if strTruthy nameArg ∧ strTruthy p.remote then p.remote.getD "" ++ ":"
    else fstSplit.1
  (pfx, fstSplit.2)

/-- The anchored `list` query vector issued by `get_instance_info`
(after `_run_command`'s project insertion). -/
def queryCmd (p : Params) (nameArg : Option String) : Cmd :=
  instProject p.project [incusBin, "list", "--format=json",
    (queryParts p nameArg).1 ++ "^" ++ (queryParts p nameArg).2 ++ "$"]

/-- The decoded result of that query under the environment: the entry for
the queried identity `prefix + instance_name` on a zero exit, else
`None`. -/
def queryResult (p : Params) (env : Env) (nameArg : Option String) :
    Option InstanceInfo :=
  if env.ce.rc (queryCmd p nameArg) = 0 then
    aget env.instances ((queryParts p nameArg).1 ++ (queryParts p nameArg).2)
  else none

/-- `IncusInstance.get_instance_info(name=None)`: anchor-pattern `list`
query for one instance; a non-zero exit, an empty result or an
undecodable result is `None`. -/
def get_instance_info (p : Params) (env : Env) (nameArg : Option String) :
    Res (Option InstanceInfo) := do
  let rc ← run_command p env [incusBin, "list", "--format=json",
    (queryParts p nameArg).1 ++ "^" ++ (queryParts p nameArg).2 ++ "$"] false
  Res.pure (if rc = 0 then
    aget env.instances ((queryParts p nameArg).1 ++ (queryParts p nameArg).2)
  else none)

/-- The `/state` query path computed by `get_instance_state`. -/
def statePath (p : Params) : String :=
  let sp :=
    if hasChar p.name_param ':' then
      let s := splitColon p.name_param
      (s.1 ++ ":", s.2)
    else if strTruthy p.remote then (p.remote.getD "" ++ ":", p.name_param)
    else ("", p.name_param)
  sp.1 ++ "/1.0/instances/" ++ sp.2 ++ "/state"

/-- The `query` vector issued by `get_instance_state`. -/
def stateCmd (p : Params) : Cmd :=
  instProject p.project [incusBin, "query", statePath p]

/-- `IncusInstance.get_instance_state`: a raw `query` of the instance's
`/state` endpoint. -/
def get_instance_state (p : Params) (env : Env) : Res (Option String) := do
  let rc ← run_command p env [incusBin, "query", statePath p] false
  Res.pure (if rc = 0 then env.stateOf (statePath p) else none)

/-- `IncusInstance.create_instance`: build the `incus init` vector from
the creation parameters and execute it. -/
def create_instance (p : Params) (env : Env) : Res Unit := do
  if !(strTruthy p.remote_image) ∧ !p.empty then
    failJ "remote_image is required when creating an instance (state=present)"
  else Res.pure ()
  let imageSrc0 := p.remote_image.getD ""
  let imageSrc :=
    if strTruthy p.remote ∧ p.remote ≠ some "local" then
      if !(hasChar imageSrc0 ':') then p.remote.getD "" ++ ":" ++ imageSrc0
      else imageSrc0
    else imageSrc0
  let cmd := [incusBin, "init", imageSrc, p.selfName]
    ++ (if p.vm then ["--vm"] else [])
    ++ (if p.ephemeral then ["--ephemeral"] else [])
    ++ (if p.empty then ["--empty"] else [])
    ++ (if p.no_profiles then ["--no-profiles"]
        else match p.profiles with
          | some ps => if ps ≠ [] then
              ps.foldr (fun q acc => "--profile" :: q :: acc) [] else []
          | none => [])
    ++ (if strTruthy p.network then ["--network", p.network.getD ""] else [])
    ++ (if strTruthy p.storage then ["--storage", p.storage.getD ""] else [])
    ++ (if strTruthy p.target then ["--target", p.target.getD ""] else [])
    ++ (p.effConfig.foldr
        (fun kv acc => "--config" :: (kv.1 ++ "=" ++ pstr kv.2) :: acc) [])
    ++ (if strTruthy p.description then
        ["--description", p.description.getD ""] else [])
  let _ ← run_command p env cmd true
  Res.pure ()

/-- `IncusInstance.start_instance`. -/
def start_instance (p : Params) (env : Env) : Res Unit := do
  let _ ← run_command p env [incusBin, "start", p.selfName] true
  Res.pure ()

/-- `IncusInstance.stop_instance` (with `--force`/`--timeout` flags). -/
def stop_instance (p : Params) (env : Env) : Res Unit := do
  let cmd := [incusBin, "stop", p.selfName]
    ++ (if p.force then ["--force"] else [])
    ++ (match p.timeout with
        | some t => ["--timeout", toString t] | none => [])
  let _ ← run_command p env cmd true
  Res.pure ()

/-- `IncusInstance.restart_instance` (with `--force`/`--timeout` flags). -/
def restart_instance (p : Params) (env : Env) : Res Unit := do
  let cmd := [incusBin, "restart", p.selfName]
    ++ (if p.force then ["--force"] else [])
    ++ (match p.timeout with
        | some t => ["--timeout", toString t] | none => [])
  let _ ← run_command p env cmd true
  Res.pure ()

/-- `IncusInstance.pause_instance`. -/
def pause_instance (p : Params) (env : Env) : Res Unit := do
  let _ ← run_command p env [incusBin, "pause", p.selfName] true
  Res.pure ()

/-- `IncusInstance.resume_instance`. -/
def resume_instance (p : Params) (env : Env) : Res Unit := do
  let _ ← run_command p env [incusBin, "resume", p.selfName] true
  Res.pure ()

/-- `IncusInstance.rebuild_instance`. -/
def rebuild_instance (p : Params) (env : Env) : Res Unit := do
  let base :=
    if strTruthy p.rebuild_image then
      [incusBin, "rebuild", p.rebuild_image.getD "", p.selfName]
    else [incusBin, "rebuild", p.selfName, "--empty"]
  let cmd := base ++ (if p.force then ["--force"] else [])
  let _ ← run_command p env cmd true
  Res.pure ()

/-- `IncusInstance.delete_instance`. -/
def delete_instance (p : Params) (env : Env) : Res Unit := do
  let cmd := [incusBin, "delete", p.selfName]
    ++ (if p.force then ["--force"] else [])
  let _ ← run_command p env cmd true
  Res.pure ()

/-- The device loop of `IncusInstance.configure_devices`: a device already
present in the current state is skipped entirely (`continue`); a missing
one is added with its `type` and remaining attributes.  No update and no
removal of existing devices, and no check-mode guard. -/
def configureDevLoop (p : Params) (env : Env)
    (currentDevices : List (String × Dict)) :
    List (String × List (String × PVal)) → Res Unit
  | [] => Res.pure ()
  | (devName, devConf) :: rest => do
      if (aget currentDevices devName).isSome then
        configureDevLoop p env currentDevices rest
      else
        match aget devConf "type" with
        | none => failJ ("Device '" ++ devName ++ "' missing required 'type'")
        | some ty =>
            if !(ptruthy ty) then
              failJ ("Device '" ++ devName ++ "' missing required 'type'")
            else do
              let cmd := [incusBin, "config", "device", "add", p.selfName,
                  devName, pstr ty] ++
                ((devConf.filter (fun kv => kv.1 ≠ "type")).map
                  (fun kv => kv.1 ++ "=" ++ pstr kv.2))
              let _ ← run_command p env cmd true
              configureDevLoop p env currentDevices rest

/-- `IncusInstance.configure_devices`. -/
def configure_devices (p : Params) (env : Env) : Res Unit := do
  if p.effDevices = [] then Res.pure ()
  else do
    let info ← get_instance_info p env none
    let currentDevices := match info with
      | some i => i.devices
      | none => []
    configureDevLoop p env currentDevices p.effDevices

/-- The key loop of `IncusInstance.configure_config`: `config set` for
every desired key whose stringified value differs from the current value.
No check-mode guard. -/
def configureCfgLoop (p : Params) (env : Env) (currentConfig : Dict) :
    List (String × PVal) → Res Bool
  | [] => Res.pure false
  | (k, v) :: rest => do
      if aget currentConfig k ≠ some (pstr v) then do
        let _ ← run_command p env
          [incusBin, "config", "set", p.selfName, k, pstr v] true
        let _ ← configureCfgLoop p env currentConfig rest
        Res.pure true
      else configureCfgLoop p env currentConfig rest

/-- `IncusInstance.configure_config`. -/
def configure_config (p : Params) (env : Env) : Res Bool := do
  if p.effConfig = [] then Res.pure false
  else do
    let info ← get_instance_info p env none
    let currentConfig := match info with
      | some i => i.config
      | none => []
    configureCfgLoop p env currentConfig p.effConfig

/-- `IncusInstance.configure_profiles`: compare sorted profile lists and
reassign in bulk on mismatch; check mode reports the change without
executing. -/
def configure_profiles (p : Params) (env : Env) : Res Bool := do
  match p.profiles with
  | none => Res.pure false
  | some ps => do
      let info ← get_instance_info p env none
      let currentProfiles := match info with
        | some i => i.profiles
        | none => []
      if sortStr currentProfiles ≠ sortStr ps then do
        if p.check_mode then Res.pure true
        else do
          let _ ← run_command p env
            [incusBin, "profile", "assign", p.selfName,
              String.intercalate "," ps] true
          Res.pure true
      else Res.pure false

/-- `IncusInstance.rename_instance`: `incus move` from `rename_from` to
`name`, both remote-qualified when `remote` is truthy. -/
def rename_instance (p : Params) (env : Env) : Res Unit := do
  let src0 := p.rename_from.getD ""
  let src := if strTruthy p.remote then p.remote.getD "" ++ ":" ++ src0 else src0
  let tgt := if strTruthy p.remote then p.remote.getD "" ++ ":" ++ p.name_param
    else p.name_param
  let _ ← run_command p env [incusBin, "move", src, tgt] true
  Res.pure ()

/-- The rename pre-step of `IncusInstance.run` (`state=present` with a
truthy `rename_from`): rename when only the source exists, fail when
neither exists, and silently fall through in the remaining cases —
including when source and target both exist. -/
def renameStep (p : Params) (env : Env) : Res Bool := do
  if p.state = "present" ∧ strTruthy p.rename_from then do
    let sourceInfo ← get_instance_info p env p.rename_from
    let targetInfo ← get_instance_info p env none
    if sourceInfo.isSome ∧ !targetInfo.isSome then do
      if p.check_mode then exitJ true (some "Instance would be renamed")
      else Res.pure ()
      rename_instance p env
      Res.pure true
    else if !sourceInfo.isSome ∧ !targetInfo.isSome then
      failJ ("Source instance '" ++ p.rename_from.getD "" ++
        "' for rename not found")
    else Res.pure false
  else Res.pure false

/-- Tail of the `present` branch: the started/stopped transition guarded
by the fetched status, with check-mode early exits. -/
def presentFinish (p : Params) (env : Env) (changed : Bool) : Res Unit := do
  if changed then do
    let _ ← get_instance_info p env none
    Res.pure ()
  else Res.pure ()
  let _ ← get_instance_state p env
  exitJ changed none

/-- Started/stopped convergence of the `present` branch (lines using the
previously fetched `info`), then the final state report. -/
def presentTail (p : Params) (env : Env) (changed : Bool)
    (info : InstanceInfo) : Res Unit := do
  let currentStatus := strLower info.status
  if p.started ∧ currentStatus = "stopped" then do
    if p.check_mode then exitJ true (some "Instance would be started")
    else Res.pure ()
    start_instance p env
    presentFinish p env true
  else if !p.started ∧ currentStatus = "running" then do
    if p.check_mode then exitJ true (some "Instance would be stopped")
    else Res.pure ()
    stop_instance p env
    presentFinish p env true
  else presentFinish p env changed

/-- The `state=present` branch of `IncusInstance.run`: create when absent
(check mode exits first), otherwise reconcile config, devices and
profiles — the latter two without any check-mode guard on execution. -/
def presentBranch (p : Params) (env : Env) (changed0 : Bool)
    (info : Option InstanceInfo) : Res Unit := do
  match info with
  | none => do
      if p.check_mode then exitJ true (some "Instance would be created")
      else Res.pure ()
      create_instance p env
      configure_devices p env
      let info2 ← get_instance_info p env none
      match info2 with
      | none => failJ "Instance created but could not be retrieved."
      | some i => presentTail p env true i
  | some i => do
      let c1 ← configure_config p env
      configure_devices p env
      let c2 ← configure_profiles p env
      presentTail p env (changed0 || c1 || c2) i

/-- The `state=absent` branch of `IncusInstance.run`. -/
def absentBranch (p : Params) (env : Env) (info : Option InstanceInfo) :
    Res Unit := do
  match info with
  | some _ => do
      if p.check_mode then exitJ true (some "Instance would be deleted")
      else Res.pure ()
      delete_instance p env
      exitJ true none
  | none => exitJ false (some "Instance already absent")

/-- The `state=restarted` branch: unconditionally `changed=true` on every
run (start when stopped, restart otherwise). -/
def restartedBranch (p : Params) (env : Env) (info : Option InstanceInfo) :
    Res Unit := do
  match info with
  | none => failJ ("Instance '" ++ p.name_param ++ "' not found, cannot restart")
  | some i => do
      let st := strLower i.status
      if p.check_mode then exitJ true (some "Instance would be restarted")
      else Res.pure ()
      if st = "stopped" then start_instance p env
      else restart_instance p env
      let _ ← get_instance_info p env none
      let _ ← get_instance_state p env
      exitJ true none

/-- The `state=frozen` branch: no-op when already frozen, fatal unless
running, otherwise pause. -/
def frozenBranch (p : Params) (env : Env) (info : Option InstanceInfo) :
    Res Unit := do
  match info with
  | none => failJ ("Instance '" ++ p.name_param ++ "' not found, cannot freeze")
  | some i => do
      let st := strLower i.status
      if st = "frozen" then exitJ false (some "Instance already frozen")
      else Res.pure ()
      if st ≠ "running" then
        failJ ("Instance '" ++ p.name_param ++
          "' must be running to freeze (current status: " ++ st ++ ")")
      else Res.pure ()
      if p.check_mode then exitJ true (some "Instance would be frozen")
      else Res.pure ()
      pause_instance p env
      let _ ← get_instance_info p env none
      let _ ← get_instance_state p env
      exitJ true none

/-- The `state=unfrozen` branch: no-op when already running, fatal unless
frozen, otherwise resume. -/
def unfrozenBranch (p : Params) (env : Env) (info : Option InstanceInfo) :
    Res Unit := do
  match info with
  | none => failJ ("Instance '" ++ p.name_param ++ "' not found, cannot unfreeze")
  | some i => do
      let st := strLower i.status
      if st = "running" then exitJ false (some "Instance already running")
      else Res.pure ()
      if st ≠ "frozen" then
        failJ ("Instance '" ++ p.name_param ++
          "' must be frozen to unfreeze (current status: " ++ st ++ ")")
      else Res.pure ()
      if p.check_mode then exitJ true (some "Instance would be unfrozen")
      else Res.pure ()
      resume_instance p env
      let _ ← get_instance_info p env none
      let _ ← get_instance_state p env
      exitJ true none

/-- The `state=rebuilt` branch: unconditionally `changed=true` on every
run. -/
def rebuiltBranch (p : Params) (env : Env) (info : Option InstanceInfo) :
    Res Unit := do
  match info with
  | none => failJ ("Instance '" ++ p.name_param ++ "' not found, cannot rebuild")
  | some _ => do
      if p.check_mode then exitJ true (some "Instance would be rebuilt")
      else Res.pure ()
      rebuild_instance p env
      let _ ← get_instance_info p env none
      let _ ← get_instance_state p env
      exitJ true none

/-- The part of `IncusInstance.run` after the rename pre-step: the
existence query, then the per-state branch (`changed0` is the `changed`
flag accumulated by the pre-step). -/
def stateDispatch (p : Params) (env : Env) (changed0 : Bool) : Res Unit := do
  let info ← get_instance_info p env none
  if p.state = "absent" then absentBranch p env info
  else if p.state = "present" then presentBranch p env changed0 info
  else if p.state = "restarted" then restartedBranch p env info
  else if p.state = "frozen" then frozenBranch p env info
  else if p.state = "unfrozen" then unfrozenBranch p env info
  else if p.state = "rebuilt" then rebuiltBranch p env info
  else Res.pure ()

/-- `IncusInstance.run`: the rename pre-step, the existence query, then
the per-state branch. -/
def run (p : Params) (env : Env) : Trace × Outcome :=
  finishRun (do
    let changed0 ← renameStep p env
    stateDispatch p env changed0)

end IncusInstance

namespace IncusProfile

/-!  Embedding of `plugins/modules/incus_profile.py` (`IncusProfile`).
The `source` YAML-file parameter is file I/O and is not modelled: the
embedding covers `source=None`, where `load_source()` yields `{}` and
`get_desired_state` seeds `desired` from the current profile. -/

open Incus

/-- The fields of a decoded `incus profile show` document that the module
reads and writes (`None`/missing collapse to `none`); further keys of the
document are never compared and are carried through the edit verbatim. -/
structure ProfileData where
  description : Option String := none
  config : Option Dict := none
  devices : Option (List (String × List (String × PVal))) := none
deriving DecidableEq, Repr

/-- Module parameters of `incus_profile`, plus the check-mode flag. -/
structure Params where
  name : String
  description : Option String := none
  config : Option (List (String × PVal)) := none
  devices : Option (List (String × List (String × PVal))) := none
  state : String := "present"
  rename_from : Option String := none
  force : Bool := false
  remote : Option String := some "local"
  project : String := "default"
  check_mode : Bool := false

/-- Python `==` on two optional string dicts (`dict.get` results). -/
def optDictEq (a b : Option Dict) : Bool :=
  match a, b with
  | none, none => true
  | some x, some y => dicteq x y
  | _, _ => false

/-- Python `==` on two device maps (deep, order-insensitive). -/
def devMapEq (a b : List (String × List (String × PVal))) : Bool :=
  (a.all fun kv => match aget b kv.1 with
    | some w => dicteq kv.2 w
    | none => false) &&
  (b.all fun kv => match aget a kv.1 with
    | some w => dicteq kv.2 w
    | none => false)

/-- Python `==` on two optional device maps. -/
def optDevEq (a b : Option (List (String × List (String × PVal)))) : Bool :=
  match a, b with
  | none, none => true
  | some x, some y => devMapEq x y
  | _, _ => false

/-- `IncusProfile.get_desired_state(current_profile)` with `source=None`:
start from a deep copy of the current profile (or the empty skeleton when
absent), then overlay `description`, the stringified `config` entries
(`None` values delete their key), and the raw `devices` entries. -/
def get_desired_state (p : Params) (currentProfile : Option ProfileData) :
    ProfileData :=
  let desired : ProfileData :=
    match currentProfile with
    | some c => c
    | none => { description := some "", config := some [], devices := some [] }
  let desired :=
    match p.description with
    | some d => { desired with description := some d }
    | none => desired
  let desired :=
    match p.config with
    | some cfg =>
        let base := desired.config.getD []
        { desired with config := some (cfg.foldl (fun acc kv =>
            match kv.2 with
            | PVal.vnone =>
                if (aget acc kv.1).isSome then acc.filter (fun e => e.1 ≠ kv.1)
                else acc
            | v => dset acc kv.1 (pstr v)) base) }
    | none => desired
  match p.devices with
  | some devs =>
      let base := desired.devices.getD []
      { desired with
        devices := some (devs.foldl (fun acc kv => dset acc kv.1 kv.2) base) }
  | none => desired

/-- The external system as observed by this module: the decoded
`profile show` result per target string, and the exit-code oracle. -/
structure Env where
  profiles : List (String × ProfileData)
  ce : CmdEnv

/-- The remote-qualified target of a profile operation. -/
def profTarget (p : Params) (nameArg : Option String) : String :=
  let t := if strTruthy nameArg then nameArg.getD "" else p.name
  if strTruthy p.remote ∧ p.remote ≠ some "local" then
    p.remote.getD "" ++ ":" ++ t
  else t

/-- The `profile show` vector issued by `get_profile`. -/
def profShowCmd (p : Params) (nameArg : Option String) : Cmd :=
  svcCmd p.project ["profile", "show", profTarget p nameArg]

/-- The decoded result of that query under the environment. -/
def profResult (p : Params) (env : Env) (nameArg : Option String) :
    Option ProfileData :=
  if env.ce.rc (profShowCmd p nameArg) = 0 then
    aget env.profiles (profTarget p nameArg)
  else none

/-- `IncusProfile.get_profile(name=None)`: `profile show`, decoding a
zero-exit output; everything else is `None`. -/
def get_profile (p : Params) (env : Env) (nameArg : Option String) :
    Res (Option ProfileData) := do
  let cmd := svcCmd p.project ["profile", "show", profTarget p nameArg]
  emit cmd
  Res.pure (if env.ce.rc cmd = 0 then aget env.profiles (profTarget p nameArg)
  else none)

/-- `IncusProfile.update(new_create)`: re-fetch, build the desired
document, compare the three managed fields with Python dict equality, and
rewrite the whole profile through `profile edit` on any difference. -/
def update (p : Params) (env : Env) (newCreate : Bool) : Res Unit := do
  let current ← get_profile p env none
  match current with
  | none => failJ "Profile not found for update"
  | some c => do
      let desired := get_desired_state p (some c)
      let updated :=
        decide (c.description ≠ desired.description) ||
        !(optDictEq c.config desired.config) ||
        !(optDevEq c.devices desired.devices)
      if !updated ∧ !newCreate then
        exitJ false (some "Profile matches configuration")
      else Res.pure ()
      if p.check_mode then exitJ true (some "Profile would be updated")
      else Res.pure ()
      let target :=
        if strTruthy p.remote ∧ p.remote ≠ some "local" then
          p.remote.getD "" ++ ":" ++ p.name
        else p.name
      let cmd := svcCmd p.project ["profile", "edit", target]
      emit cmd
      if env.ce.rc cmd ≠ 0 then
        failJ ("Failed to update profile: " ++ env.ce.err cmd)
      else exitJ true (some "Profile updated")

/-- `IncusProfile.create`: `profile create` then `update(new_create=True)`
(the edit rewrites the fresh profile with the desired document). -/
def create (p : Params) (env : Env) : Res Unit := do
  let target :=
    if strTruthy p.remote ∧ p.remote ≠ some "local" then
      p.remote.getD "" ++ ":" ++ p.name
    else p.name
  let cmd := svcCmd p.project ["profile", "create", target]
  emit cmd
  if env.ce.rc cmd ≠ 0 then
    failJ ("Failed to create profile: " ++ env.ce.err cmd)
  else Res.pure ()
  update p env true

/-- `IncusProfile.rename`: `profile rename` from `rename_from` to `name`
(only the source is remote-qualified, as in the source). -/
def rename (p : Params) (env : Env) : Res Unit := do
  let target := p.name
  let src0 := p.rename_from.getD ""
  let source :=
    if strTruthy p.remote ∧ p.remote ≠ some "local" then
      p.remote.getD "" ++ ":" ++ src0
    else src0
  if p.check_mode then exitJ true (some "Profile would be renamed")
  else Res.pure ()
  let cmd := svcCmd p.project ["profile", "rename", source, target]
  emit cmd
  if env.ce.rc cmd ≠ 0 then
    failJ ("Failed to rename profile: " ++ env.ce.err cmd)
  else exitJ true (some "Profile renamed")

/-- `IncusProfile.delete`: a plain `profile delete`; on a non-zero exit
whose stderr matches an in-use phrase and without `force`, a
dependency-conflict failure, otherwise a generic failure.  `force` is
consulted only in the error branch — no detach is ever issued. -/
def delete (p : Params) (env : Env) : Res Unit := do
  let target :=
    if strTruthy p.remote ∧ p.remote ≠ some "local" then
      p.remote.getD "" ++ ":" ++ p.name
    else p.name
  if p.check_mode then exitJ true (some "Profile would be deleted")
  else Res.pure ()
  let cmd := svcCmd p.project ["profile", "delete", target]
  emit cmd
  if env.ce.rc cmd ≠ 0 then
    let errL := strLower (env.ce.err cmd)
    if !p.force ∧ (containsSub errL "in use" || containsSub errL "currently used"
        || containsSub errL "still in use") then
      failJ ("Cannot delete profile '" ++ p.name ++
        "': it is in use by instances. Use force=true to override.")
    else failJ ("Failed to delete profile: " ++ env.ce.err cmd)
  else exitJ true (some "Profile deleted")

/-- The rename pre-step of `IncusProfile.run`: rename when only the source
exists, silently `pass` when source and target both exist, fail when the
source is missing but the target exists, and fall through to creation when
neither exists. -/
def renameStep (p : Params) (env : Env) : Res Unit := do
  if strTruthy p.rename_from then do
    let sourceProfile ← get_profile p env p.rename_from
    let targetProfile ← get_profile p env (some p.name)
    if sourceProfile.isSome ∧ !targetProfile.isSome then rename p env
    else if sourceProfile.isSome ∧ targetProfile.isSome then Res.pure ()
    else if !sourceProfile.isSome ∧ targetProfile.isSome then
      failJ ("Source profile '" ++ p.rename_from.getD "" ++
        "' for rename not found")
    else Res.pure ()
  else Res.pure ()

/-- The part of the `state=present` branch of `IncusProfile.run` after
the rename pre-step: fetch and create-or-update. -/
def presentCore (p : Params) (env : Env) : Res Unit := do
  let profile ← get_profile p env none
  match profile with
  | none => do
      if p.check_mode then exitJ true (some "Profile would be created")
      else Res.pure ()
      create p env
  | some _ => update p env false

/-- `IncusProfile.run`. -/
def run (p : Params) (env : Env) : Trace × Outcome :=
  finishRun (do
    if p.state = "present" then do
      renameStep p env
      presentCore p env
    else if p.state = "absent" then do
      let profile ← get_profile p env none
      match profile with
      | some _ => delete p env
      | none => exitJ false (some "Profile not found")
    else Res.pure ())

end IncusProfile

namespace IncusStorage

/-!  Embedding of `plugins/modules/incus_storage.py` (`IncusStorage`). -/

open Incus

/-- The fields of a decoded `incus storage show` document the module
reads. -/
structure PoolData where
  description : Option String := none
  config : Dict := []
deriving DecidableEq, Repr

/-- Module parameters of `incus_storage`, plus the check-mode flag. -/
structure Params where
  name : String
  driver : Option String := none
  config : List (String × PVal) := []
  description : Option String := none
  state : String := "present"
  force : Bool := false
  remote : Option String := some "local"
  project : String := "default"
  check_mode : Bool := false

/-- The external system as observed by this module. -/
structure Env where
  pool : Option PoolData
  ce : CmdEnv

/-- The remote-qualified pool target. -/
def poolTarget (p : Params) : String :=
  if strTruthy p.remote ∧ p.remote ≠ some "local" then
    p.remote.getD "" ++ ":" ++ p.name
  else p.name

/-- `IncusStorage.get_pool_info`: `storage show`, decoded on zero exit. -/
def get_pool_info (p : Params) (env : Env) : Res (Option PoolData) := do
  let cmd := svcCmd p.project ["storage", "show", poolTarget p]
  emit cmd
  Res.pure (if env.ce.rc cmd = 0 then env.pool else none)

/-- `IncusStorage.create`: build `storage create` with driver,
description flag, and `k=v` config pairs; check mode exits before
executing. -/
def create (p : Params) (env : Env) : Res Unit := do
  let nameArg :=
    if strTruthy p.remote ∧ p.remote ≠ some "local" then
      p.remote.getD "" ++ ":" ++ p.name
    else p.name
  let cmd := svcCmd p.project (["storage", "create", nameArg, p.driver.getD ""]
    ++ (if strTruthy p.description then
        ["--description", p.description.getD ""] else [])
    ++ p.config.map (fun kv => kv.1 ++ "=" ++ pstr kv.2))
  if p.check_mode then exitJ true (some "Storage pool would be created")
  else Res.pure ()
  emit cmd
  if env.ce.rc cmd ≠ 0 then
    failJ ("Failed to create storage pool: " ++ env.ce.err cmd)
  else exitJ true (some "Storage pool created")

/-- The config loop of `IncusStorage.update`: `storage set` for every
desired key whose stringified value differs from the current one
(`.get(k, '')`), collecting per-key messages; check mode skips execution
but still reports the change. -/
def updateCfgLoop (p : Params) (env : Env) (target : String) (cur : Dict) :
    List (String × PVal) → Res (Bool × List String)
  | [] => Res.pure (false, [])
  | (k, v) :: rest => do
      let currVal := (aget cur k).getD ""
      if currVal ≠ pstr v then do
        if !p.check_mode then do
          let cmd := svcCmd p.project
            ["storage", "set", target, k ++ "=" ++ pstr v]
          emit cmd
          if env.ce.rc cmd ≠ 0 then
            failJ ("Failed to set config option '" ++ k ++ "': " ++
              env.ce.err cmd)
          else Res.pure ()
        else Res.pure ()
        let r ← updateCfgLoop p env target cur rest
        Res.pure (true, ("Updated config '" ++ k ++ "'") :: r.2)
      else updateCfgLoop p env target cur rest

/-- `IncusStorage.update(current_info)`.  The description branch of the
source computes its condition and then only executes `pass` statements —
it is a no-op and can never set `changed` or issue a command; only config
keys are reconciled. -/
def update (p : Params) (env : Env) (currentInfo : PoolData) : Res Unit := do
  let target := poolTarget p
  let r ← updateCfgLoop p env target currentInfo.config p.config
  if r.1 then exitJ true (some (String.intercalate ", " r.2))
  else exitJ false (some "Storage pool already matches configuration")

/-- `IncusStorage.delete`: a plain `storage delete`; on non-zero exit with
an in-use phrase and without `force`, a dependency-conflict failure,
otherwise a generic failure.  `force` is consulted only in the error
branch — no cascade or detach is ever issued. -/
def delete (p : Params) (env : Env) : Res Unit := do
  let target := poolTarget p
  if p.check_mode then exitJ true (some "Storage pool would be deleted")
  else Res.pure ()
  let cmd := svcCmd p.project ["storage", "delete", target]
  emit cmd
  if env.ce.rc cmd ≠ 0 then
    let errL := strLower (env.ce.err cmd)
    if !p.force ∧ (containsSub errL "in use" || containsSub errL "currently used"
        || containsSub errL "not empty") then
      failJ ("Cannot delete storage pool '" ++ p.name ++
        "': it has volumes or instances using it. Use force=true to override.")
    else failJ ("Failed to delete storage pool: " ++ env.ce.err cmd)
  else exitJ true (some "Storage pool deleted")

/-- `IncusStorage.run`. -/
def run (p : Params) (env : Env) : Trace × Outcome :=
  finishRun (do
    let cur ← get_pool_info p env
    if p.state = "present" then
      match cur with
      | none =>
          if !(strTruthy p.driver) then
            failJ "'driver' is required when creating a storage pool"
          else create p env
      | some info => update p env info
    else if p.state = "absent" then
      match cur with
      | some _ => delete p env
      | none => exitJ false (some "Storage pool not found")
    else Res.pure ())

end IncusStorage

namespace IncusNetworkForward

/-!  Embedding of `plugins/modules/incus_network_forward.py`
(`IncusNetworkForward`). -/

open Incus

/-- One element of a `ports` list (current or desired).  A field holds
`none` when the key is absent (current document) or the sub-option was not
supplied (desired list); all sub-option values are strings. -/
structure PortSpec where
  protocol : Option String := none
  listen_port : Option String := none
  target_address : Option String := none
  target_port : Option String := none
  description : Option String := none
deriving DecidableEq, Repr

/-- The per-element normalization of `create_or_update`: stringify the
five known sub-fields, default a missing `description` to the empty
string, and default a missing `target_port` to the element's
`listen_port`. -/
def normPort (q : PortSpec) : PortSpec :=
  let q1 : PortSpec := { q with description := some (q.description.getD "") }
  if q1.target_port = none ∧ q1.listen_port ≠ none then
    { q1 with target_port := q1.listen_port }
  else q1

/-- The sort key of the port comparison: `p.get('listen_port', '')`. -/
def portKey (q : PortSpec) : String := q.listen_port.getD ""

/-- The fields of a decoded `network forward show` document the module
reads. -/
structure FwdData where
  description : Option String := none
  config : Option Dict := none
  ports : Option (List PortSpec) := none
deriving DecidableEq, Repr

/-- Module parameters of `incus_network_forward`, plus the check-mode
flag. -/
structure Params where
  network : String
  listen_address : String
  state : String := "present"
  description : Option String := none
  config : Option Dict := none
  ports : Option (List PortSpec) := none
  project : String := "default"
  remote : Option String := some "local"
  check_mode : Bool := false

/-- `IncusNetworkForward.get_network_target`. -/
def netTarget (p : Params) : String :=
  if strTruthy p.remote ∧ p.remote ≠ some "local" then
    p.remote.getD "" ++ ":" ++ p.network
  else p.network

/-- The external system as observed by this module. -/
structure Env where
  fwd : Option FwdData
  ce : CmdEnv

/-- `IncusNetworkForward.get_forward`: `network forward show`, decoded on
zero exit. -/
def get_forward (p : Params) (env : Env) : Res (Option FwdData) := do
  let cmd := svcCmd p.project
    ["network", "forward", "show", netTarget p, p.listen_address]
  emit cmd
  Res.pure (if env.ce.rc cmd = 0 then env.fwd else none)

/-- The `desired` document assembled by `create_or_update` (piped as YAML
to the stdin of the `network forward edit` command; the stdin payload is
not part of the traced argument vectors). -/
def desiredDoc (p : Params) (current : Option FwdData) : FwdData :=
  { description := some (match p.description with
      | some d => d
      | none => match current with
        | some c => c.description.getD ""
        | none => ""),
    config := some (match p.config with
      | some c => c
      | none => match current with
        | some c => c.config.getD []
        | none => []),
    ports := some (match p.ports with
      | some ps => ps
      | none => match current with
        | some c => c.ports.getD []
        | none => []) }

/-- The port-list comparison of `create_or_update`: both lists stably
sorted by `listen_port` only, each element normalized, then compared as
lists (element-wise Python dict equality). -/
def portsDiffer (currentPorts desiredPorts : List PortSpec) : Bool :=
  decide (((sortByKey portKey currentPorts).map normPort) ≠
    ((sortByKey portKey desiredPorts).map normPort))

/-- The description drift test of `create_or_update`:
`self.description is not None and current.get('description') != self.description`. -/
def descDiffers (p : Params) (cur : FwdData) : Bool :=
  match p.description with
  | none => false
  | some d => decide (cur.description ≠ some d)

/-- The config drift test of `create_or_update`:
`self.config is not None and current.get('config') != self.config`. -/
def cfgDiffers (p : Params) (cur : FwdData) : Bool :=
  match p.config with
  | none => false
  | some cfg => match cur.config with
    | none => true
    | some c => !(dicteq c cfg)

/-- The ports drift test of `create_or_update` (absent desired ports mean
no test). -/
def portsChanged (p : Params) (cur : FwdData) : Bool :=
  match p.ports with
  | none => false
  | some dps => portsDiffer (cur.ports.getD []) dps

/-- `IncusNetworkForward.create_or_update`: on an existing forward,
compute whether the description, config or normalized port set differs and
rewrite the entire forward via a single `network forward edit`; on an
absent forward, `create` then `edit`, deleting the just-created forward
when the configuration edit fails. -/
def create_or_update (p : Params) (env : Env) : Res Unit := do
  let current ← get_forward p env
  match current with
  | some cur => do
      let ch1 := descDiffers p cur
      let ch2 := cfgDiffers p cur
      let ch3 := portsChanged p cur
      if !(ch1 || ch2 || ch3) then
        exitJ false (some "Network forward matches configuration")
      else Res.pure ()
      if p.check_mode then exitJ true (some "Network forward would be updated")
      else Res.pure ()
      let cmdE := svcCmd p.project
        ["network", "forward", "edit", netTarget p, p.listen_address]
      emit cmdE
      if env.ce.rc cmdE ≠ 0 then
        failJ ("Failed to update network forward: " ++ env.ce.err cmdE)
      else exitJ true (some "Network forward updated")
  | none => do
      if p.check_mode then exitJ true (some "Network forward would be created")
      else Res.pure ()
      let cmdC := svcCmd p.project
        ["network", "forward", "create", netTarget p, p.listen_address]
      emit cmdC
      if env.ce.rc cmdC ≠ 0 then
        failJ ("Failed to create network forward: " ++ env.ce.err cmdC)
      else Res.pure ()
      let cmdE := svcCmd p.project
        ["network", "forward", "edit", netTarget p, p.listen_address]
      emit cmdE
      if env.ce.rc cmdE ≠ 0 then do
        emit (svcCmd p.project
          ["network", "forward", "delete", netTarget p, p.listen_address])
        failJ ("Failed to configure created network forward: " ++
          env.ce.err cmdE)
      else exitJ true (some "Network forward created")

/-- `IncusNetworkForward.delete`. -/
def delete (p : Params) (env : Env) : Res Unit := do
  if p.check_mode then do
    let f ← get_forward p env
    if f.isSome then exitJ true (some "Network forward would be deleted")
    else exitJ false (some "Network forward already absent")
  else Res.pure ()
  let f ← get_forward p env
  if !f.isSome then exitJ false (some "Network forward already absent")
  else Res.pure ()
  let cmd := svcCmd p.project
    ["network", "forward", "delete", netTarget p, p.listen_address]
  emit cmd
  if env.ce.rc cmd ≠ 0 then
    failJ ("Failed to delete network forward: " ++ env.ce.err cmd)
  else exitJ true (some "Network forward deleted")

/-- `IncusNetworkForward.run`. -/
def run (p : Params) (env : Env) : Trace × Outcome :=
  finishRun (do
    if p.state = "present" then create_or_update p env
    else if p.state = "absent" then delete p env
    else Res.pure ())

end IncusNetworkForward

namespace Scenarios

/-!  Concrete parameter records and environments used to evaluate the
embedded modules at specific inputs. -/

open Incus

/-- An external system on which every command succeeds with empty
output. -/
def zeroCE : CmdEnv := { rc := fun _ => 0, out := fun _ => "", err := fun _ => "" }

/-- Check-mode `incus_instance` request against an existing instance with
drifted config and a new device. -/
def instC1p : IncusInstance.Params :=
  { name_param := "c1", state := "present", check_mode := true,
    config := [("limits.cpu", .vstr "4")],
    devices := [("shared",
      [("type", .vstr "disk"), ("source", .vstr "/mnt"), ("path", .vstr "/mnt")])] }

/-- Environment for the check-mode run: `c1` exists, stopped, with
`limits.cpu=2` and only a `root` device. -/
def instC1env : IncusInstance.Env :=
  { instances := [("local:c1",
      { status := "Stopped", config := [("limits.cpu", "2")],
        devices := [("root", [("path", "/"), ("pool", "default"), ("type", "disk")])],
        profiles := ["default"] })],
    stateOf := fun _ => some "{}", ce := zeroCE }

/-- Rename request where source and target both already exist. -/
def instC2p : IncusInstance.Params :=
  { name_param := "new", rename_from := some "old", state := "present" }

/-- Environment with both `old` and `new` existing as distinct stopped
instances. -/
def instC2env : IncusInstance.Env :=
  { instances := [("local:old", { status := "Stopped" }),
      ("local:new", { status := "Stopped" })],
    stateOf := fun _ => some "{}", ce := zeroCE }

/-- Profile rename request where source and target both already exist. -/
def profC2p : IncusProfile.Params :=
  { name := "new", rename_from := some "old", state := "present" }

/-- Environment with both `old` and `new` profiles existing. -/
def profC2env : IncusProfile.Env :=
  { profiles := [("old", { description := some "a", config := some [], devices := some [] }),
      ("new", { description := some "b", config := some [], devices := some [] })],
    ce := zeroCE }

/-- A `state=restarted` request. -/
def instC3p : IncusInstance.Params := { name_param := "c1", state := "restarted" }

/-- A `state=rebuilt` request. -/
def instC3reb : IncusInstance.Params :=
  { name_param := "c1", state := "rebuilt", rebuild_image := some "images:debian/13" }

/-- The state of the world immediately after a successful restart (or
rebuild to a running image) of `c1`: the instance exists and is running,
with unchanged configuration — i.e. the state a second, immediately
repeated call observes. -/
def instC3env : IncusInstance.Env :=
  { instances := [("local:c1", { status := "Running" })],
    stateOf := fun _ => some "{}", ce := zeroCE }

/-- Conforming `state=present` request (everything already converged). -/
def instC3conf : IncusInstance.Params :=
  { name_param := "c1", state := "present", started := true,
    config := [("limits.cpu", "4")].map (fun kv => (kv.1, PVal.vstr kv.2)),
    profiles := some ["default"] }

/-- Environment in which `instC3conf` is already satisfied. -/
def instC3confEnv : IncusInstance.Env :=
  { instances := [("local:c1",
      { status := "Running", config := [("limits.cpu", "4")],
        devices := [("root", [("type", "disk")])], profiles := ["default"] })],
    stateOf := fun _ => some "{}", ce := zeroCE }

/-- Converged storage request for the idempotence claim. -/
def storC3p : IncusStorage.Params :=
  { name := "pool1", state := "present", config := [("size", .vstr "10GiB")] }

/-- Environment in which `storC3p` is already satisfied. -/
def storC3env : IncusStorage.Env :=
  { pool := some { description := some "d", config := [("size", "10GiB")] },
    ce := zeroCE }

/-- `incus_config` request updating one attribute of the existing device
`eth0`, with `root` unmentioned. -/
def cfgC4p : IncusConfig.Params :=
  { instance_name := "c1", state := "present",
    devices := some (.dict [("eth0", [("mtu", .vstr "1400")])]) }

/-- Current state with devices `eth0` (mtu 1500) and `root`. -/
def cfgC4cur : IncusConfig.ShowData :=
  { config := [],
    devices := [("eth0", [("type", "nic"), ("mtu", "1500")]),
      ("root", [("type", "disk"), ("path", "/")])] }

/-- The same desired devices handed to `incus_instance` instead. -/
def instC4p : IncusInstance.Params :=
  { name_param := "c1", state := "present",
    devices := [("eth0", [("type", .vstr "nic"), ("mtu", .vstr "1400")])] }

/-- Environment for `instC4p`: `eth0` exists with a different mtu. -/
def instC4env : IncusInstance.Env :=
  { instances := [("local:c1",
      { status := "Stopped",
        devices := [("eth0", [("type", "nic"), ("mtu", "1500")]),
          ("root", [("type", "disk")])] })],
    stateOf := fun _ => some "{}", ce := zeroCE }

/-- The partial-update request of the claim: desired config mentions only
`limits.cpu`. -/
def cfgC5p : IncusConfig.Params :=
  { instance_name := "c1", state := "present",
    config := some (.dict [("limits.cpu", .vstr "4")]) }

/-- Current config with both `limits.cpu` and `limits.memory`. -/
def cfgC5cur : IncusConfig.ShowData :=
  { config := [("limits.cpu", "2"), ("limits.memory", "4GiB")] }

/-- Forced profile delete request. -/
def profC6p : IncusProfile.Params := { name := "web", state := "absent", force := true }

/-- The same delete without force. -/
def profC6p0 : IncusProfile.Params := { name := "web", state := "absent", force := false }

/-- Environment in which the profile exists and the external system
rejects its deletion as in use. -/
def profC6env : IncusProfile.Env :=
  { profiles := [("web", { description := some "d", config := some [], devices := some [] })],
    ce := { rc := fun c =>
              if c = ["incus", "--project", "default", "profile", "delete", "web"]
              then 1 else 0,
            out := fun _ => "",
            err := fun _ => "Error: Profile is currently in use" } }

/-- Forced storage-pool delete request. -/
def storC6p : IncusStorage.Params := { name := "pool0", state := "absent", force := true }

/-- The same delete without force. -/
def storC6p0 : IncusStorage.Params := { name := "pool0", state := "absent", force := false }

/-- Environment in which the pool exists and the external system rejects
its deletion as in use. -/
def storC6env : IncusStorage.Env :=
  { pool := some { description := some "d", config := [] },
    ce := { rc := fun c =>
              if c = ["incus", "--project", "default", "storage", "delete", "pool0"]
              then 1 else 0,
            out := fun _ => "",
            err := fun _ => "Error: storage pool is in use" } }

/-- A tcp port rule listening on 80. -/
def portA : IncusNetworkForward.PortSpec :=
  { protocol := some "tcp", listen_port := some "80",
    target_address := some "10.0.0.1", target_port := some "80",
    description := some "" }

/-- A udp port rule listening on the same port 80. -/
def portB : IncusNetworkForward.PortSpec :=
  { protocol := some "udp", listen_port := some "80",
    target_address := some "10.0.0.1", target_port := some "80",
    description := some "" }

/-- Forward request whose desired ports are the current ones in the
opposite order (equal as sets, tied on the `listen_port` sort key). -/
def fwdC7p : IncusNetworkForward.Params :=
  { network := "net0", listen_address := "192.0.2.1", ports := some [portB, portA] }

/-- Environment with the forward present and ports `[portA, portB]`. -/
def fwdC7env : IncusNetworkForward.Env :=
  { fwd := some { description := some "", config := some [], ports := some [portA, portB] },
    ce := zeroCE }

/-- Forward request whose desired ports equal the current ones. -/
def fwdC7same : IncusNetworkForward.Params :=
  { network := "net0", listen_address := "192.0.2.1", ports := some [portA, portB] }

/-- Storage request under the default project. -/
def storC8p : IncusStorage.Params :=
  { name := "pool0", state := "present", driver := some "dir" }

/-- Environment without the pool. -/
def storC8env : IncusStorage.Env := { pool := none, ce := zeroCE }

/-- Forward-creation request. -/
def fwdC9p : IncusNetworkForward.Params :=
  { network := "net0", listen_address := "192.0.2.1", ports := some [portA] }

/-- Environment in which the forward is absent, creation succeeds, and the
follow-up configuration edit fails. -/
def fwdC9env : IncusNetworkForward.Env :=
  { fwd := none,
    ce := { rc := fun c =>
              if c = ["incus", "--project", "default", "network", "forward", "edit",
                  "net0", "192.0.2.1"]
              then 1 else 0,
            out := fun _ => "",
            err := fun _ => "Error: Invalid ports" } }

/-- Storage request whose description differs from the current one while
every desired config key already matches. -/
def storC10p : IncusStorage.Params :=
  { name := "pool0", state := "present", description := some "new description",
    config := [("size", .vstr "10GiB")] }

/-- Environment whose pool carries the old description and matching
config. -/
def storC10env : IncusStorage.Env :=
  { pool := some { description := some "old", config := [("size", "10GiB")] },
    ce := zeroCE }

end Scenarios

section ResLemmas

open Incus

/-- Sequencing after a computation that produced a value appends the
continuation's trace. -/
theorem Res.bind_ok {α β : Type} (t : Trace) (a : α) (f : α → Res β) :
    Res.bind (t, Except.ok a) f = (t ++ (f a).1, (f a).2) := rfl

/-- Sequencing after a terminated computation is the terminated
computation. -/
theorem Res.bind_error {α β : Type} (t : Trace) (o : Outcome) (f : α → Res β) :
    Res.bind (t, Except.error o) f = (t, Except.error o) := rfl

/-- The do-notation bind on `Res` is `Res.bind`. -/
theorem Res.bind_eq {α β : Type} (r : Res α) (f : α → Res β) :
    r >>= f = Res.bind r f := rfl

/-- `Res.pure` issues nothing. -/
theorem Res.pure_eq {α : Type} (a : α) : (Res.pure a : Res α) = ([], Except.ok a) := rfl

end ResLemmas

section ClaimC1

open Incus

/-- C1: refuted — code bug.  The claim (with the spec) requires a
check-mode reconcile to invoke zero mutating sub-commands.  Evaluating
`IncusInstance.run` with `check_mode=true` on an existing instance whose
config differs and whose desired devices include a new one shows the run
executing `config set` and `config device add` for real
(`configure_config` and `configure_devices` have no check-mode guard,
unlike `configure_profiles` and the sibling `incus_config` module),
while reporting `changed=true`. -/
theorem C1_check_mode_executes_mutations :
    (IncusInstance.run Scenarios.instC1p Scenarios.instC1env).2 =
      Outcome.exit true none ∧
    ["incus", "config", "set", "local:c1", "limits.cpu", "4"] ∈
      (IncusInstance.run Scenarios.instC1p Scenarios.instC1env).1 ∧
    ["incus", "config", "device", "add", "local:c1", "shared", "disk",
        "source=/mnt", "path=/mnt"] ∈
      (IncusInstance.run Scenarios.instC1p Scenarios.instC1env).1 ∧
    (IncusInstance.run Scenarios.instC1p Scenarios.instC1env).1.any isMutating = true ∧
    Scenarios.instC1p.check_mode = true := by decide

end ClaimC1

section ClaimC2cex

open Incus

/-- C2: counterexample.  With both the rename source `old` and the target
`new` existing as distinct instances, the claimed conflict failure does
not happen: the run silently skips the rename and reports a successful
`changed=false` reconciliation of the target, issuing only read-only
queries. -/
theorem C2_both_exist_no_conflict :
    (IncusInstance.run Scenarios.instC2p Scenarios.instC2env).2 =
      Outcome.exit false none ∧
    (IncusInstance.run Scenarios.instC2p Scenarios.instC2env).1.all isReadOnly = true := by
  decide

end ClaimC2cex

section ClaimC3cex

open Incus

/-- C3: counterexample.  `Scenarios.instC3env` is the observable state
immediately after a successful first `state=restarted` (resp. `rebuilt`)
call: the instance exists and is running, nothing else changed.  An
immediately repeated call still reports `changed=true`, not the claimed
`changed=false`: both branches exit `changed=true` unconditionally
whenever the instance exists. -/
theorem C3_restart_rebuild_not_idempotent :
    (IncusInstance.run Scenarios.instC3p Scenarios.instC3env).2 =
      Outcome.exit true none ∧
    (IncusInstance.run Scenarios.instC3reb Scenarios.instC3env).2 =
      Outcome.exit true none := by decide

end ClaimC3cex

section ClaimC4cex

open Incus

/-- C4: counterexample.  For `incus_instance`, with current devices
`{eth0, root}` and desired devices `{eth0}` carrying a changed `mtu`,
`configure_devices` issues no mutating command at all: the existing
`eth0` is skipped (`continue`), so its attribute is not updated —
contradicting the claim's "the change set updates eth0's attribute"
(only the sibling `incus_config` module updates it). -/
theorem C4_instance_never_updates_existing_device :
    IncusInstance.configure_devices Scenarios.instC4p Scenarios.instC4env =
      ([IncusInstance.queryCmd Scenarios.instC4p none], Except.ok ()) ∧
    (IncusInstance.configure_devices Scenarios.instC4p
      Scenarios.instC4env).1.all isReadOnly = true := by decide

end ClaimC4cex

section ClaimC6

open Incus

/-- C6: the code contradicts the claim's force semantics (and the
modules' own documentation, which promises detaching dependents before a
forced delete).  Without force, an in-use delete fails with the
dependency-conflict message and the only issued commands are the show and
the plain delete (no cascade).  With force, the module
issues the identical plain delete — no detach, no cascade — and the same
in-use rejection surfaces as a generic failure instead of succeeding. -/
theorem C6_force_never_cascades :
    IncusProfile.run Scenarios.profC6p0 Scenarios.profC6env =
      ([["incus", "--project", "default", "profile", "show", "web"],
        ["incus", "--project", "default", "profile", "delete", "web"]],
       Outcome.fail
         "Cannot delete profile 'web': it is in use by instances. Use force=true to override.") ∧
    IncusProfile.run Scenarios.profC6p Scenarios.profC6env =
      ([["incus", "--project", "default", "profile", "show", "web"],
        ["incus", "--project", "default", "profile", "delete", "web"]],
       Outcome.fail "Failed to delete profile: Error: Profile is currently in use") ∧
    IncusStorage.run Scenarios.storC6p0 Scenarios.storC6env =
      ([["incus", "--project", "default", "storage", "show", "pool0"],
        ["incus", "--project", "default", "storage", "delete", "pool0"]],
       Outcome.fail
         "Cannot delete storage pool 'pool0': it has volumes or instances using it. Use force=true to override.") ∧
    IncusStorage.run Scenarios.storC6p Scenarios.storC6env =
      ([["incus", "--project", "default", "storage", "show", "pool0"],
        ["incus", "--project", "default", "storage", "delete", "pool0"]],
       Outcome.fail "Failed to delete storage pool: Error: storage pool is in use") := by
  decide

end ClaimC6

section ClaimC7cex

open Incus

/-- C7: counterexample.  The two collections of port rules are equal as
sets (one is a permutation of the other, already normalized), yet because
the code sorts only by `listen_port` (here tied at `"80"`) and then
compares as lists, it deems them different and performs a replace-via-edit
rewrite, reporting `changed=true` instead of the claimed no-change. -/
theorem C7_equal_sets_still_rewritten :
    ((sortByKey IncusNetworkForward.portKey
        [Scenarios.portA, Scenarios.portB]).map IncusNetworkForward.normPort).Perm
      ((sortByKey IncusNetworkForward.portKey
        [Scenarios.portB, Scenarios.portA]).map IncusNetworkForward.normPort) ∧
    (IncusNetworkForward.run Scenarios.fwdC7p Scenarios.fwdC7env).2 =
      Outcome.exit true (some "Network forward updated") ∧
    ["incus", "--project", "default", "network", "forward", "edit",
        "net0", "192.0.2.1"] ∈
      (IncusNetworkForward.run Scenarios.fwdC7p Scenarios.fwdC7env).1 := by decide

end ClaimC7cex

section ClaimC8cex

open Incus

/-- C8: counterexample.  The claim says no `--project` flag is inserted
when the project equals `'default'`; but `run_incus` of `incus_storage`
(and of `incus_profile`/`incus_network_forward`) inserts `--project`
whenever the project is truthy, so a run under the default project issues
vectors carrying `--project default`. -/
theorem C8_default_project_still_flagged :
    Scenarios.storC8p.project = "default" ∧
    (IncusStorage.run Scenarios.storC8p Scenarios.storC8env).1.head? =
      some ["incus", "--project", "default", "storage", "show", "pool0"] ∧
    svcCmd "default" ["storage", "show", "pool0"] =
      ["incus", "--project", "default", "storage", "show", "pool0"] := by decide

end ClaimC8cex

section ClaimC8

open Incus

/-- C8 (amended): every issued argument vector begins with the client
binary path.  `incus_instance` inserts `--project <name>` at index 1
exactly when the project is truthy and differs from `'default'` (and the
flag is not already present); the shared `run_incus` builder of
`incus_storage`, `incus_profile` and `incus_network_forward` instead
inserts `--project <name>` whenever the project is truthy — including
when it equals `'default'`. -/
theorem C8_project_flag_characterization :
    (∀ (project : String) (args : List String),
      (svcCmd project args).head? = some "incus" ∧
      (project ≠ "" → svcCmd project args =
        "incus" :: "--project" :: project :: args) ∧
      (project = "" → svcCmd project args = "incus" :: args)) ∧
    (∀ (project b : String) (rest : List String),
      (IncusInstance.instProject project (b :: rest)).head? = some b ∧
      ("--project" ∉ b :: rest →
        ("--project" ∈ IncusInstance.instProject project (b :: rest) ↔
          project ≠ "" ∧ project ≠ "default"))) := by
  constructor
  · intro project args
    refine ⟨?_, ?_, ?_⟩
    · unfold svcCmd
      by_cases h : project = "" <;> simp [h]
    · intro h
      simp [svcCmd, h]
    · intro h
      simp [svcCmd, h]
  · intro project b rest
    constructor
    · unfold IncusInstance.instProject
      split <;> rfl
    · intro hnot
      unfold IncusInstance.instProject
      by_cases h1 : project = ""
      · simp only [h1]
        simp [hnot]
      · by_cases h2 : project = "default"
        · simp only [h2]
          simp [hnot]
        · simp [h1, h2, hnot]

/-- Witness for the amended C8 theorem at concrete inputs. -/
theorem C8_project_flag_witness :
    svcCmd "default" ["storage", "show", "x"] =
      "incus" :: "--project" :: "default" :: ["storage", "show", "x"] ∧
    ("--project" ∈ IncusInstance.instProject "proj1" ["incus", "list"] ↔
      ("proj1" ≠ "" ∧ "proj1" ≠ "default")) := by
  refine ⟨(C8_project_flag_characterization.1 "default" ["storage", "show", "x"]).2.1
    (by decide), ?_⟩
  exact (C8_project_flag_characterization.2 "proj1" "incus" ["list"]).2 (by decide)

end ClaimC8

section ClaimC5

open Incus

/-- The present-state key loop of `incus_config.process_config` issues
exactly one `config set` per desired key whose stringified value differs
from the current one, in order, and reports `changed` iff any differs. -/
theorem processConfigLoop_present_spec (p : IncusConfig.Params) (env : CmdEnv)
    (localConfig : Dict) (hst : p.state = "present")
    (hcm : p.check_mode = false) (hrc : ∀ c, env.rc c = 0) :
    ∀ cfg : List (String × PVal),
      IncusConfig.processConfigLoop p env localConfig cfg =
        ((cfg.filter fun kv =>
            decide (aget localConfig kv.1 ≠ some (pstr kv.2))).map
          (fun kv => ["incus", "config", "set", p.name, kv.1, pstr kv.2]),
         Except.ok (cfg.any fun kv =>
            decide (aget localConfig kv.1 ≠ some (pstr kv.2))))
  | [] => by simp [IncusConfig.processConfigLoop, Res.pure]
  | (k, v) :: rest => by
      have IH := processConfigLoop_present_spec p env localConfig hst hcm hrc rest
      by_cases h : aget localConfig k = some (pstr v)
      · simp [IncusConfig.processConfigLoop, hst, hcm, h, IH, Res.bind_eq,
          Res.bind_ok, Res.pure]
      · simp [IncusConfig.processConfigLoop, hst, hcm, h, hrc, IH, Res.bind_eq,
          Res.bind_ok, Res.pure, emit]

/-- The key loop of `IncusInstance.configure_config` issues exactly one
`config set` per desired key whose stringified value differs from the
current one, in order, and reports `changed` iff any differs — with no
check-mode guard at all. -/
theorem configureCfgLoop_spec (p : IncusInstance.Params)
    (env : IncusInstance.Env) (cur : Dict) (hrc : ∀ c, env.ce.rc c = 0) :
    ∀ cfg : List (String × PVal),
      IncusInstance.configureCfgLoop p env cur cfg =
        ((cfg.filter fun kv => decide (aget cur kv.1 ≠ some (pstr kv.2))).map
          (fun kv => IncusInstance.instProject p.project
            [IncusInstance.incusBin, "config", "set", p.selfName, kv.1, pstr kv.2]),
         Except.ok (cfg.any fun kv => decide (aget cur kv.1 ≠ some (pstr kv.2))))
  | [] => by simp [IncusInstance.configureCfgLoop, Res.pure]
  | (k, v) :: rest => by
      have IH := configureCfgLoop_spec p env cur hrc rest
      by_cases h : aget cur k = some (pstr v)
      · simp [IncusInstance.configureCfgLoop, h, IH, Res.bind_eq,
          Res.bind_ok, Res.pure]
      · simp [IncusInstance.configureCfgLoop, IncusInstance.run_command, h,
          hrc, IH, Res.bind_eq, Res.bind_ok, Res.pure, emit]

/-- C5: confirmed.  For a present-state config reconciliation (in both
`incus_config.process_config` and the key loop of
`incus_instance.configure_config`), the issued commands are exactly one
`config set <key> <stringified value>` per mentioned key whose
stringified desired value differs from its current value, in mention
order — so no command touches any unmentioned key — and `changed` holds
iff at least one mentioned key differs. -/
theorem C5_partial_update_exact :
    (∀ (p : IncusConfig.Params) (env : CmdEnv) (cur : IncusConfig.ShowData)
       (cfg : List (String × PVal)),
      p.state = "present" → p.check_mode = false →
      p.config = some (.dict cfg) → (∀ c, env.rc c = 0) →
      IncusConfig.process_config p env cur =
        ((cfg.filter fun kv =>
            decide (aget cur.config kv.1 ≠ some (pstr kv.2))).map
          (fun kv => ["incus", "config", "set", p.name, kv.1, pstr kv.2]),
         Except.ok (cfg.any fun kv =>
            decide (aget cur.config kv.1 ≠ some (pstr kv.2))))) ∧
    (∀ (p : IncusInstance.Params) (env : IncusInstance.Env) (cur : Dict)
       (cfg : List (String × PVal)), (∀ c, env.ce.rc c = 0) →
      IncusInstance.configureCfgLoop p env cur cfg =
        ((cfg.filter fun kv => decide (aget cur kv.1 ≠ some (pstr kv.2))).map
          (fun kv => IncusInstance.instProject p.project
            [IncusInstance.incusBin, "config", "set", p.selfName, kv.1, pstr kv.2]),
         Except.ok (cfg.any fun kv => decide (aget cur kv.1 ≠ some (pstr kv.2))))) := by
  constructor
  · intro p env cur cfg hst hcm hcfg hrc
    simp [IncusConfig.process_config, hcfg, IncusConfig.targetConfig,
      Res.bind_eq, Res.bind_ok, Res.pure,
      processConfigLoop_present_spec p env cur.config hst hcm hrc cfg]
  · intro p env cur cfg hrc
    exact configureCfgLoop_spec p env cur hrc cfg

/-- Witness for C5 at the claim's example: current config
`{limits.cpu: 2, limits.memory: 4GiB}`, desired `{limits.cpu: 4}` —
exactly one `set limits.cpu=4` and nothing touching `limits.memory`. -/
theorem C5_partial_update_witness :
    IncusConfig.process_config Scenarios.cfgC5p Scenarios.zeroCE Scenarios.cfgC5cur =
      ([["incus", "config", "set", "c1", "limits.cpu", "4"]], Except.ok true) := by
  rw [C5_partial_update_exact.1 Scenarios.cfgC5p Scenarios.zeroCE Scenarios.cfgC5cur
    [("limits.cpu", PVal.vstr "4")] rfl rfl rfl (fun _ => rfl)]
  decide

end ClaimC5

section ClaimC9

open Incus

/-- C9: confirmed.  When the forward is absent and `state=present`, a
successful `network forward create` followed by a failing
`network forward edit` makes the module delete the just-created forward
before failing: the full trace is exactly show, create, edit, delete, and
the outcome is the configuration failure. -/
theorem C9_failed_edit_deletes_created (p : IncusNetworkForward.Params)
    (env : IncusNetworkForward.Env)
    (hst : p.state = "present") (hcm : p.check_mode = false)
    (habsent : env.fwd = none)
    (hcreate : env.ce.rc (svcCmd p.project
      ["network", "forward", "create", IncusNetworkForward.netTarget p,
        p.listen_address]) = 0)
    (hedit : env.ce.rc (svcCmd p.project
      ["network", "forward", "edit", IncusNetworkForward.netTarget p,
        p.listen_address]) ≠ 0) :
    IncusNetworkForward.run p env =
      ([svcCmd p.project ["network", "forward", "show",
          IncusNetworkForward.netTarget p, p.listen_address],
        svcCmd p.project ["network", "forward", "create",
          IncusNetworkForward.netTarget p, p.listen_address],
        svcCmd p.project ["network", "forward", "edit",
          IncusNetworkForward.netTarget p, p.listen_address],
        svcCmd p.project ["network", "forward", "delete",
          IncusNetworkForward.netTarget p, p.listen_address]],
       Outcome.fail ("Failed to configure created network forward: " ++
        env.ce.err (svcCmd p.project ["network", "forward", "edit",
          IncusNetworkForward.netTarget p, p.listen_address]))) := by
  simp [IncusNetworkForward.run, IncusNetworkForward.create_or_update,
    IncusNetworkForward.get_forward, habsent, hst, hcm, hcreate, hedit,
    Res.bind_eq, Res.bind_ok, Res.pure, emit, failJ, finishRun]

/-- Witness for C9 at a concrete absent forward whose configuration edit
exits 1. -/
theorem C9_failed_edit_witness :
    IncusNetworkForward.run Scenarios.fwdC9p Scenarios.fwdC9env =
      ([["incus", "--project", "default", "network", "forward", "show",
          "net0", "192.0.2.1"],
        ["incus", "--project", "default", "network", "forward", "create",
          "net0", "192.0.2.1"],
        ["incus", "--project", "default", "network", "forward", "edit",
          "net0", "192.0.2.1"],
        ["incus", "--project", "default", "network", "forward", "delete",
          "net0", "192.0.2.1"]],
       Outcome.fail "Failed to configure created network forward: Error: Invalid ports") := by
  rw [C9_failed_edit_deletes_created Scenarios.fwdC9p Scenarios.fwdC9env rfl rfl rfl
    (by decide) (by decide)]
  decide

end ClaimC9

section ClaimC10

open Incus

/-- The config loop of `IncusStorage.update` issues nothing and reports
no change when every desired key's stringified value already equals the
current one. -/
theorem updateCfgLoop_noop (p : IncusStorage.Params) (env : IncusStorage.Env)
    (target : String) (cur : Dict) :
    ∀ cfg : List (String × PVal),
      (∀ kv ∈ cfg, (aget cur kv.1).getD "" = pstr kv.2) →
      IncusStorage.updateCfgLoop p env target cur cfg =
        ([], Except.ok (false, []))
  | [], _ => by simp [IncusStorage.updateCfgLoop, Res.pure]
  | (k, v) :: rest, h => by
      have h1 : (aget cur k).getD "" = pstr v := h (k, v) (List.mem_cons_self _ _)
      have IH := updateCfgLoop_noop p env target cur rest
        (fun kv hm => h kv (List.mem_cons_of_mem _ hm))
      simp [IncusStorage.updateCfgLoop, h1, IH, Res.bind_eq, Res.bind_ok, Res.pure]

/-- C10: confirmed.  Reconciling an existing storage pool with
`state=present`, a desired description that differs from the current one,
and desired config whose stringified values all match, issues no mutating
command (only the `storage show` read) and reports `changed=false`: the
description of an existing pool is never updated (the source's
description branch only executes `pass`). -/
theorem C10_description_never_updated (p : IncusStorage.Params)
    (env : IncusStorage.Env) (cur : IncusStorage.PoolData)
    (hst : p.state = "present")
    (hshow : env.ce.rc (svcCmd p.project
      ["storage", "show", IncusStorage.poolTarget p]) = 0)
    (hpool : env.pool = some cur)
    (hdesc : p.description.isSome ∧ cur.description ≠ p.description)
    (hcfg : ∀ kv ∈ p.config, (aget cur.config kv.1).getD "" = pstr kv.2) :
    IncusStorage.run p env =
      ([svcCmd p.project ["storage", "show", IncusStorage.poolTarget p]],
       Outcome.exit false (some "Storage pool already matches configuration")) := by
  simp [IncusStorage.run, IncusStorage.get_pool_info, hshow, hpool, hst,
    IncusStorage.update, updateCfgLoop_noop p env (IncusStorage.poolTarget p)
      cur.config p.config hcfg,
    Res.bind_eq, Res.bind_ok, Res.pure, emit, exitJ, finishRun]

/-- Witness for C10: pool `pool0` with description `old` and matching
config, desired description `new description` — `changed=false`, only
the read query. -/
theorem C10_description_witness :
    IncusStorage.run Scenarios.storC10p Scenarios.storC10env =
      ([["incus", "--project", "default", "storage", "show", "pool0"]],
       Outcome.exit false (some "Storage pool already matches configuration")) := by
  rw [C10_description_never_updated Scenarios.storC10p Scenarios.storC10env
    { description := some "old", config := [("size", "10GiB")] }
    rfl (by decide) rfl (by decide) (by decide)]
  decide

end ClaimC10

section CoreLemmas

open Incus

/-- Finishing a run that starts with an already-evaluated step prefixes
that step's trace. -/
theorem finishRun_bind_ok {α : Type} (t : Trace) (a : α) (f : α → Res Unit) :
    finishRun (Res.bind (t, Except.ok a) f) =
      (t ++ (finishRun (f a)).1, (finishRun (f a)).2) := by
  rcases hfa : f a with ⟨tr, e⟩
  cases e <;> simp [finishRun, Res.bind, hfa]

/-- `get_instance_info` issues exactly its query and returns the decoded
result. -/
theorem get_instance_info_spec (p : IncusInstance.Params)
    (env : IncusInstance.Env) (nameArg : Option String) :
    IncusInstance.get_instance_info p env nameArg =
      ([IncusInstance.queryCmd p nameArg],
       Except.ok (IncusInstance.queryResult p env nameArg)) := by
  simp [IncusInstance.get_instance_info, IncusInstance.run_command,
    IncusInstance.queryCmd, IncusInstance.queryResult,
    Res.bind_eq, Res.bind_ok, Res.pure, emit]

/-- `get_instance_state` issues exactly its query. -/
theorem get_instance_state_spec (p : IncusInstance.Params)
    (env : IncusInstance.Env) :
    IncusInstance.get_instance_state p env =
      ([IncusInstance.stateCmd p],
       Except.ok (if env.ce.rc (IncusInstance.stateCmd p) = 0 then
          env.stateOf (IncusInstance.statePath p) else none)) := by
  simp [IncusInstance.get_instance_state, IncusInstance.run_command,
    IncusInstance.stateCmd, IncusInstance.statePath,
    Res.bind_eq, Res.bind_ok, Res.pure, emit]

/-- `get_profile` issues exactly its query and returns the decoded
result. -/
theorem get_profile_spec (p : IncusProfile.Params) (env : IncusProfile.Env)
    (nameArg : Option String) :
    IncusProfile.get_profile p env nameArg =
      ([IncusProfile.profShowCmd p nameArg],
       Except.ok (IncusProfile.profResult p env nameArg)) := by
  simp [IncusProfile.get_profile, IncusProfile.profShowCmd,
    IncusProfile.profResult, Res.bind_eq, Res.bind_ok, Res.pure, emit]

/-- Sub-command recovery through the shared `run_incus` builder (for
argument lists that do not themselves start with a project flag). -/
theorem cmdArgs_svcCmd (project : String) (args : List String)
    (h : stripProj args = args) : cmdArgs (svcCmd project args) = args := by
  by_cases hp : project = ""
  · have hs : svcCmd project args = "incus" :: args := by simp [svcCmd, hp]
    unfold cmdArgs
    rw [hs]
    exact h
  · have hs : svcCmd project args = "incus" :: "--project" :: project :: args := by
      simp [svcCmd, hp]
    unfold cmdArgs
    rw [hs]
    rfl

/-- Sub-command recovery through the instance module's project
insertion. -/
theorem cmdArgs_instProject (project b : String) (rest : List String)
    (h : stripProj rest = rest) :
    cmdArgs (IncusInstance.instProject project (b :: rest)) = rest := by
  unfold IncusInstance.instProject cmdArgs
  split
  · rfl
  · exact h

/-- The instance existence query is read-only. -/
theorem isReadOnly_queryCmd (p : IncusInstance.Params) (n : Option String) :
    isReadOnly (IncusInstance.queryCmd p n) = true := by
  unfold IncusInstance.queryCmd
  rw [show IncusInstance.incusBin = "incus" from rfl]
  rw [isReadOnly, cmdArgs_instProject _ _ _ rfl]
  rfl

/-- The instance `/state` query is read-only. -/
theorem isReadOnly_stateCmd (p : IncusInstance.Params) :
    isReadOnly (IncusInstance.stateCmd p) = true := by
  unfold IncusInstance.stateCmd
  rw [show IncusInstance.incusBin = "incus" from rfl]
  rw [isReadOnly, cmdArgs_instProject _ _ _ rfl]
  rfl

/-- The profile existence query is read-only. -/
theorem isReadOnly_profShowCmd (p : IncusProfile.Params) (n : Option String) :
    isReadOnly (IncusProfile.profShowCmd p n) = true := by
  unfold IncusProfile.profShowCmd
  rw [isReadOnly, cmdArgs_svcCmd _ _ rfl]
  rfl

/-- The rename pre-step of `IncusInstance.run` reduces to its two
existence queries and no change whenever the target exists (whatever the
source lookup returns). -/
theorem instRenameStep_target_exists (p : IncusInstance.Params)
    (env : IncusInstance.Env) (i2 : IncusInstance.InstanceInfo)
    (hst : p.state = "present") (hrf : strTruthy p.rename_from = true)
    (htgt : IncusInstance.queryResult p env none = some i2) :
    IncusInstance.renameStep p env =
      ([IncusInstance.queryCmd p p.rename_from, IncusInstance.queryCmd p none],
       Except.ok false) := by
  simp [IncusInstance.renameStep, hst, hrf, get_instance_info_spec, htgt,
    Res.bind_eq, Res.bind_ok, Res.pure]

/-- The rename pre-step of `IncusInstance.run` is skipped entirely when
the state is not `present` or no rename was requested. -/
theorem instRenameStep_skip (p : IncusInstance.Params)
    (env : IncusInstance.Env)
    (h : ¬(p.state = "present" ∧ strTruthy p.rename_from = true)) :
    IncusInstance.renameStep p env = ([], Except.ok false) := by
  simp only [IncusInstance.renameStep]
  rw [if_neg]
  · rfl
  · simpa using h

end CoreLemmas

section ClaimC2

open Incus

/-- C2 (amended): when both the rename-from source and the target already
exist as distinct resources, the reconcilers do not fail with a conflict
— they silently skip the rename.  For `incus_instance` the run equals the
two pre-step existence queries followed by exactly the reconciliation of
the target that would happen with no rename pending; for `incus_profile`
the rename pre-step likewise reduces to its two queries and a silent
`pass`, and the run continues with the plain update of the target. -/
theorem C2_both_exist_skips_rename :
    (∀ (p : IncusInstance.Params) (env : IncusInstance.Env)
       (i1 i2 : IncusInstance.InstanceInfo),
      p.state = "present" → strTruthy p.rename_from = true →
      IncusInstance.queryResult p env p.rename_from = some i1 →
      IncusInstance.queryResult p env none = some i2 →
      IncusInstance.run p env =
        (IncusInstance.queryCmd p p.rename_from :: IncusInstance.queryCmd p none ::
          (finishRun (IncusInstance.stateDispatch p env false)).1,
         (finishRun (IncusInstance.stateDispatch p env false)).2)) ∧
    (∀ (p : IncusProfile.Params) (env : IncusProfile.Env)
       (d1 d2 : IncusProfile.ProfileData),
      p.state = "present" → strTruthy p.rename_from = true →
      IncusProfile.profResult p env p.rename_from = some d1 →
      IncusProfile.profResult p env (some p.name) = some d2 →
      IncusProfile.run p env =
        (IncusProfile.profShowCmd p p.rename_from ::
          IncusProfile.profShowCmd p (some p.name) ::
          (finishRun (IncusProfile.presentCore p env)).1,
         (finishRun (IncusProfile.presentCore p env)).2)) := by
  constructor
  · intro p env i1 i2 hst hrf hsrc htgt
    unfold IncusInstance.run
    rw [Res.bind_eq, instRenameStep_target_exists p env i2 hst hrf htgt,
      finishRun_bind_ok]
    rfl
  · intro p env d1 d2 hst hrf hsrc htgt
    have hpre : IncusProfile.renameStep p env =
        ([IncusProfile.profShowCmd p p.rename_from,
          IncusProfile.profShowCmd p (some p.name)], Except.ok ()) := by
      simp [IncusProfile.renameStep, hrf, get_profile_spec, hsrc, htgt,
        Res.bind_eq, Res.bind_ok, Res.pure]
    unfold IncusProfile.run
    rw [hst]
    simp only [eq_self_iff_true, ite_true]
    rw [Res.bind_eq, hpre, finishRun_bind_ok]
    rfl

/-- Witness for the amended C2 at concrete both-exist inputs: the
instance run reduces to the two queries plus the plain reconciliation,
and the profile run likewise. -/
theorem C2_both_exist_witness :
    IncusInstance.run Scenarios.instC2p Scenarios.instC2env =
      (IncusInstance.queryCmd Scenarios.instC2p Scenarios.instC2p.rename_from ::
        IncusInstance.queryCmd Scenarios.instC2p none ::
        (finishRun (IncusInstance.stateDispatch Scenarios.instC2p
          Scenarios.instC2env false)).1,
       (finishRun (IncusInstance.stateDispatch Scenarios.instC2p
          Scenarios.instC2env false)).2) ∧
    IncusProfile.run Scenarios.profC2p Scenarios.profC2env =
      (IncusProfile.profShowCmd Scenarios.profC2p Scenarios.profC2p.rename_from ::
        IncusProfile.profShowCmd Scenarios.profC2p (some Scenarios.profC2p.name) ::
        (finishRun (IncusProfile.presentCore Scenarios.profC2p
          Scenarios.profC2env)).1,
       (finishRun (IncusProfile.presentCore Scenarios.profC2p
          Scenarios.profC2env)).2) :=
  ⟨C2_both_exist_skips_rename.1 Scenarios.instC2p Scenarios.instC2env
    { status := "Stopped" } { status := "Stopped" } rfl (by decide)
    (by decide) (by decide),
   C2_both_exist_skips_rename.2 Scenarios.profC2p Scenarios.profC2env
    { description := some "a", config := some [], devices := some [] }
    { description := some "b", config := some [], devices := some [] }
    rfl (by decide) (by decide) (by decide)⟩

end ClaimC2

section ClaimC4

open Incus

/-- A boolean command predicate survives sequencing when both sides
satisfy it. -/
theorem Res.bind_all {α β : Type} (P : Cmd → Bool) (r : Res α)
    (f : α → Res β) (h1 : r.1.all P = true)
    (h2 : ∀ a, ((f a).1.all P) = true) :
    ((Res.bind r f).1.all P) = true := by
  rcases r with ⟨t, e⟩
  cases e with
  | error o => simpa [Res.bind] using h1
  | ok a => simp [Res.bind, List.all_append, h2 a]
            <;> simpa using h1

/-- A `config device set` issued by `incus_config` is not a removal. -/
theorem deviceSet_not_remove (n dn kv : String) :
    (!(isDeviceRemove ["incus", "config", "device", "set", n, dn, kv])) = true := rfl

/-- A `config device add` issued by `incus_config` is not a removal. -/
theorem deviceAdd_not_remove (n dn ty : String) (attrs : List String) :
    (!(isDeviceRemove (["incus", "config", "device", "add", n, dn, ty] ++ attrs))) = true := rfl

/-- Sequencing a pure value keeps a trace predicate. -/
theorem Res.pure_bind_all {α β : Type} (P : Cmd → Bool) (a : α)
    (f : α → Res β) (h : ((f a).1.all P) = true) :
    ((Res.bind (Res.pure a) f).1.all P) = true := by
  simpa [Res.bind, Res.pure] using h

/-- Sequencing after `fail_json` issues nothing further. -/
theorem Res.fail_bind_all {α β : Type} (P : Cmd → Bool) (m : String)
    (f : α → Res β) : ((Res.bind (failJ m) f).1.all P) = true := by
  simp [Res.bind, failJ]

/-- Sequencing after `exit_json` issues nothing further. -/
theorem Res.exit_bind_all {α β : Type} (P : Cmd → Bool) (b : Bool)
    (m : Option String) (f : α → Res β) :
    ((Res.bind (exitJ b m) f).1.all P) = true := by
  simp [Res.bind, exitJ]

/-- The attribute loop over an existing device never emits a device
removal. -/
theorem devAttrLoop_no_remove (p : IncusConfig.Params) (env : CmdEnv)
    (devName : String) (cur : Dict) :
    ∀ attrs, ((IncusConfig.devAttrLoop p env devName cur attrs).1.all
      (fun c => !(isDeviceRemove c))) = true
  | [] => by simp [IncusConfig.devAttrLoop, Res.pure]
  | (k, v) :: rest => by
      have IH := devAttrLoop_no_remove p env devName cur rest
      have tail : ∀ y : Bool,
          ((Res.bind (IncusConfig.devAttrLoop p env devName cur rest)
            (fun restCh => Res.pure (y || restCh))).1.all
              (fun c => !(isDeviceRemove c))) = true := by
        intro y
        exact Res.bind_all _ _ _ IH (fun r => by simp [Res.pure])
      simp only [IncusConfig.devAttrLoop, Res.bind_eq]
      split
      · exact Res.pure_bind_all _ _ _ (tail false)
      · split
        · split
          · exact Res.pure_bind_all _ _ _ (tail true)
          · apply Res.bind_all
            · simp [emit, deviceSet_not_remove]
            · intro x
              split
              · exact Res.fail_bind_all _ _ _
              · exact Res.pure_bind_all _ _ _ (tail true)
        · exact Res.pure_bind_all _ _ _ (tail false)

/-- The device loop of `incus_config.process_devices` with
`state=present` never emits a device removal (it only adds missing
devices and sets drifted attributes of mentioned existing ones). -/
theorem processDevicesLoop_no_remove (p : IncusConfig.Params) (env : CmdEnv)
    (localDevices : List (String × Dict)) (hst : p.state = "present") :
    ∀ devs, ((IncusConfig.processDevicesLoop p env localDevices devs).1.all
      (fun c => !(isDeviceRemove c))) = true
  | [] => by simp [IncusConfig.processDevicesLoop, Res.pure]
  | (dn, dc) :: rest => by
      have IH := processDevicesLoop_no_remove p env localDevices hst rest
      have tail : ∀ y : Bool,
          ((Res.bind (IncusConfig.processDevicesLoop p env localDevices rest)
            (fun restCh => Res.pure (y || restCh))).1.all
              (fun c => !(isDeviceRemove c))) = true := by
        intro y
        exact Res.bind_all _ _ _ IH (fun r => by simp [Res.pure])
      simp only [IncusConfig.processDevicesLoop, Res.bind_eq, hst,
        eq_self_iff_true, ite_true]
      rcases h : aget localDevices dn with _ | d
      · simp only [h]
        rcases h2 : aget dc "type" with _ | ty
        · exact Res.fail_bind_all _ _ _
        · simp only []
          split
          · exact Res.fail_bind_all _ _ _
          · split
            · exact Res.pure_bind_all _ _ _ (tail true)
            · apply Res.bind_all
              · simp only [emit, List.all_cons, List.all_nil, Bool.and_true]
                rfl
              · intro x
                split
                · exact Res.fail_bind_all _ _ _
                · exact Res.pure_bind_all _ _ _ (tail true)
      · simp only [h]
        exact Res.bind_all _ _ _ (devAttrLoop_no_remove p env dn d dc) tail

/-- A command built by the instance module's device-add loop is a device
add. -/
theorem isDeviceAdd_instProject (project : String) (l : List String) :
    isDeviceAdd (IncusInstance.instProject project
      ("incus" :: "config" :: "device" :: "add" :: l)) = true := by
  rw [isDeviceAdd, cmdArgs_instProject _ _ _ rfl]
  rfl

/-- The device loop of `IncusInstance.configure_devices` only ever emits
`config device add` commands (existing devices are skipped outright: no
update, no removal). -/
theorem configureDevLoop_only_adds (p : IncusInstance.Params)
    (env : IncusInstance.Env) (cur : List (String × Dict)) :
    ∀ devs, ((IncusInstance.configureDevLoop p env cur devs).1.all
      isDeviceAdd) = true
  | [] => by simp [IncusInstance.configureDevLoop, Res.pure]
  | (dn, dc) :: rest => by
      have IH := configureDevLoop_only_adds p env cur rest
      simp only [IncusInstance.configureDevLoop, Res.bind_eq]
      split
      · exact IH
      · rcases h2 : aget dc "type" with _ | ty
        · simp [failJ]
        · simp only []
          split
          · simp [failJ]
          · simp only [IncusInstance.run_command, Res.bind_eq]
            apply Res.bind_all
            · apply Res.bind_all
              · simp only [emit, List.all_cons, List.all_nil, Bool.and_true]
                rw [show IncusInstance.incusBin = "incus" from rfl]
                exact isDeviceAdd_instProject _ _
              · intro a
                split
                · simp [failJ]
                · simp [Res.pure]
            · intro a
              exact IH

/-- C4 (amended): on `state=present` reconciliation a device present in
the current state but absent from the desired mapping is never removed:
`incus_config.process_devices` emits no `config device remove` at all
with `state=present` (it updates mentioned existing devices'
attributes, as in the claim's example, and leaves `root` untouched),
`incus_instance.configure_devices` emits only `config device add` for
missing devices (it neither updates nor removes existing ones), and a
removal is emitted exactly for an explicitly listed device under
`state=absent`. -/
theorem C4_no_automatic_device_removal :
    (∀ (p : IncusConfig.Params) (env : CmdEnv) (cur : IncusConfig.ShowData),
      p.state = "present" →
      ((IncusConfig.process_devices p env cur).1.all
        (fun c => !(isDeviceRemove c))) = true) ∧
    IncusConfig.process_devices Scenarios.cfgC4p Scenarios.zeroCE Scenarios.cfgC4cur =
      ([["incus", "config", "device", "set", "c1", "eth0", "mtu=1400"]],
       Except.ok true) ∧
    (∀ (p : IncusInstance.Params) (env : IncusInstance.Env)
       (cur : List (String × Dict)) (devs : List (String × List (String × PVal))),
      ((IncusInstance.configureDevLoop p env cur devs).1.all isDeviceAdd) = true) ∧
    IncusConfig.process_devices
      { instance_name := "c1", state := "absent",
        devices := some (.listKeys ["eth0"]) } Scenarios.zeroCE Scenarios.cfgC4cur =
      ([["incus", "config", "device", "remove", "c1", "eth0"]], Except.ok true) := by
  refine ⟨?_, by decide, ?_, by decide⟩
  · intro p env cur hst
    rcases hd : p.devices with _ | rd
    · simp [IncusConfig.process_devices, hd, Res.pure]
    · simp only [IncusConfig.process_devices, hd, Res.bind_eq]
      apply Res.bind_all
      · rcases rd with d | ks <;>
          simp [IncusConfig.targetDevices, hst, Res.pure, failJ] <;>
          split <;> simp [Res.pure, failJ]
      · intro tgt
        exact processDevicesLoop_no_remove p env cur.devices hst tgt
  · intro p env cur devs
    exact configureDevLoop_only_adds p env cur devs

/-- Witness for the amended C4: the universally quantified no-removal
facts applied at the concrete example inputs. -/
theorem C4_no_automatic_device_removal_witness :
    ((IncusConfig.process_devices Scenarios.cfgC4p Scenarios.zeroCE
      Scenarios.cfgC4cur).1.all (fun c => !(isDeviceRemove c))) = true ∧
    ((IncusInstance.configureDevLoop Scenarios.instC4p Scenarios.instC4env
      [("eth0", [("type", "nic")]), ("root", [("type", "disk")])]
      Scenarios.instC4p.devices).1.all isDeviceAdd) = true :=
  ⟨C4_no_automatic_device_removal.1 Scenarios.cfgC4p Scenarios.zeroCE
    Scenarios.cfgC4cur rfl,
   C4_no_automatic_device_removal.2.2.1 Scenarios.instC4p Scenarios.instC4env
    [("eth0", [("type", "nic")]), ("root", [("type", "disk")])]
    Scenarios.instC4p.devices⟩

end ClaimC4

section ClaimC7

open Incus

/-- C7 (amended): for a network-forward reconciliation of an existing
forward whose description and config already match, each port element of
both sides is normalized (absent `description` to the empty string,
absent `target_port` to the element's `listen_port`) — but the two
collections are then compared as lists after a stable sort on
`listen_port` alone, which is order-insensitive only up to that key.
When the sorted normalized lists are equal, nothing is issued and
`changed=false`; when they differ, exactly one mutating command is
issued: the single full replace-via-edit rewrite (never per-element
patches).  Collections equal as sets but tied on `listen_port` in a
different relative order do trigger the rewrite (see the
counterexample). -/
theorem C7_ports_sorted_list_comparison (p : IncusNetworkForward.Params)
    (env : IncusNetworkForward.Env) (cur : IncusNetworkForward.FwdData)
    (dps : List IncusNetworkForward.PortSpec)
    (hst : p.state = "present")
    (hshow : env.ce.rc (svcCmd p.project
      ["network", "forward", "show", IncusNetworkForward.netTarget p,
        p.listen_address]) = 0)
    (hcur : env.fwd = some cur)
    (hports : p.ports = some dps)
    (hdesc : ∀ d, p.description = some d → cur.description = some d)
    (hcfg : ∀ cfg, p.config = some cfg →
      ∃ c, cur.config = some c ∧ dicteq c cfg = true) :
    (IncusNetworkForward.portsDiffer (cur.ports.getD []) dps = false →
      IncusNetworkForward.run p env =
        ([svcCmd p.project ["network", "forward", "show",
            IncusNetworkForward.netTarget p, p.listen_address]],
         Outcome.exit false (some "Network forward matches configuration"))) ∧
    (IncusNetworkForward.portsDiffer (cur.ports.getD []) dps = true →
      p.check_mode = false →
      env.ce.rc (svcCmd p.project ["network", "forward", "edit",
        IncusNetworkForward.netTarget p, p.listen_address]) = 0 →
      IncusNetworkForward.run p env =
        ([svcCmd p.project ["network", "forward", "show",
            IncusNetworkForward.netTarget p, p.listen_address],
          svcCmd p.project ["network", "forward", "edit",
            IncusNetworkForward.netTarget p, p.listen_address]],
         Outcome.exit true (some "Network forward updated")) ∧
      ((IncusNetworkForward.run p env).1.filter isMutating) =
        [svcCmd p.project ["network", "forward", "edit",
          IncusNetworkForward.netTarget p, p.listen_address]]) := by
  have hch1 : IncusNetworkForward.descDiffers p cur = false := by
    rcases hd : p.description with _ | d
    · simp [IncusNetworkForward.descDiffers, hd]
    · simp [IncusNetworkForward.descDiffers, hd, hdesc d hd]
  have hch2 : IncusNetworkForward.cfgDiffers p cur = false := by
    rcases hc : p.config with _ | cfg
    · simp [IncusNetworkForward.cfgDiffers, hc]
    · rcases hcfg cfg hc with ⟨c, hc1, hc2⟩
      simp [IncusNetworkForward.cfgDiffers, hc, hc1, hc2]
  have hshowRO : isReadOnly (svcCmd p.project
      ["network", "forward", "show", IncusNetworkForward.netTarget p,
        p.listen_address]) = true := by
    rw [isReadOnly, cmdArgs_svcCmd _ _ rfl]
    rfl
  have heditMut : isMutating (svcCmd p.project
      ["network", "forward", "edit", IncusNetworkForward.netTarget p,
        p.listen_address]) = true := by
    rw [isMutating, isReadOnly, cmdArgs_svcCmd _ _ rfl]
    rfl
  constructor
  · intro hp
    simp [IncusNetworkForward.run, IncusNetworkForward.create_or_update,
      IncusNetworkForward.get_forward, hst, hshow, hcur, hch1, hch2,
      IncusNetworkForward.portsChanged, hports, hp,
      Res.bind_eq, Res.bind_ok, Res.bind_error, Res.pure, emit, exitJ, failJ,
      finishRun]
  · intro hp hcm hedit
    have hrun : IncusNetworkForward.run p env =
        ([svcCmd p.project ["network", "forward", "show",
            IncusNetworkForward.netTarget p, p.listen_address],
          svcCmd p.project ["network", "forward", "edit",
            IncusNetworkForward.netTarget p, p.listen_address]],
         Outcome.exit true (some "Network forward updated")) := by
      simp [IncusNetworkForward.run, IncusNetworkForward.create_or_update,
        IncusNetworkForward.get_forward, hst, hshow, hcur, hch1, hch2,
        IncusNetworkForward.portsChanged, hports, hp, hcm, hedit,
        Res.bind_eq, Res.bind_ok, Res.bind_error, Res.pure, emit, exitJ, failJ,
        finishRun]
    refine ⟨hrun, ?_⟩
    rw [hrun]
    have h1 : isMutating (svcCmd p.project
        ["network", "forward", "show", IncusNetworkForward.netTarget p,
          p.listen_address]) = false := by
      simp [isMutating, hshowRO]
    simp [List.filter_cons, List.filter_nil, h1, heditMut]

/-- Witness for the amended C7: at the counterexample's inputs the sorted
normalized lists differ (tie broken by input order), so exactly the
single edit is issued; with the desired ports given in matching order the
run reports no change and issues nothing mutating. -/
theorem C7_ports_sorted_list_witness :
    IncusNetworkForward.run Scenarios.fwdC7same Scenarios.fwdC7env =
      ([["incus", "--project", "default", "network", "forward", "show",
          "net0", "192.0.2.1"]],
       Outcome.exit false (some "Network forward matches configuration")) ∧
    ((IncusNetworkForward.run Scenarios.fwdC7p Scenarios.fwdC7env).1.filter
        isMutating) =
      [["incus", "--project", "default", "network", "forward", "edit",
        "net0", "192.0.2.1"]] := by
  constructor
  · have h := (C7_ports_sorted_list_comparison Scenarios.fwdC7same
      Scenarios.fwdC7env
      { description := some "", config := some [],
        ports := some [Scenarios.portA, Scenarios.portB] }
      [Scenarios.portA, Scenarios.portB] rfl (by decide) (by decide) rfl
      (by intro d hd; cases hd) (by intro cfg hc; cases hc)).1 (by decide)
    rw [h]
    decide
  · have h := ((C7_ports_sorted_list_comparison Scenarios.fwdC7p
      Scenarios.fwdC7env
      { description := some "", config := some [],
        ports := some [Scenarios.portA, Scenarios.portB] }
      [Scenarios.portB, Scenarios.portA] rfl (by decide) (by decide) rfl
      (by intro d hd; cases hd) (by intro cfg hc; cases hc)).2 (by decide)
      rfl (by decide)).2
    rw [h]
    decide

end ClaimC7

section ClaimC3lemmas

open Incus

/-- `_run_command` under an all-accepting executor issues its (projected)
vector and succeeds. -/
theorem run_command_rc0 (p : IncusInstance.Params) (env : IncusInstance.Env)
    (cmd : Cmd) (b : Bool)
    (h : env.ce.rc (IncusInstance.instProject p.project cmd) = 0) :
    IncusInstance.run_command p env cmd b =
      ([IncusInstance.instProject p.project cmd], Except.ok 0) := by
  simp [IncusInstance.run_command, h, Res.bind_eq, Res.bind_ok, Res.pure, emit]

/-- `configure_config` on an instance whose current config already holds
every desired key at its stringified value issues only its read query and
reports no change. -/
theorem configure_config_noop (p : IncusInstance.Params)
    (env : IncusInstance.Env) (i : IncusInstance.InstanceInfo)
    (hrc : ∀ c, env.ce.rc c = 0)
    (htgt : IncusInstance.queryResult p env none = some i)
    (hconf : ∀ kv ∈ p.effConfig, aget i.config kv.1 = some (pstr kv.2)) :
    ∃ t, IncusInstance.configure_config p env = (t, Except.ok false) ∧
      t.all isReadOnly = true := by
  by_cases he : p.effConfig = []
  · exact ⟨[], by simp [IncusInstance.configure_config, he, Res.pure], rfl⟩
  · refine ⟨[IncusInstance.queryCmd p none], ?_, by simp [isReadOnly_queryCmd]⟩
    have hfil : p.effConfig.filter
        (fun kv => decide (aget i.config kv.1 ≠ some (pstr kv.2))) = [] := by
      rw [List.filter_eq_nil]
      intro kv hm
      simp [hconf kv hm]
    have hany : (p.effConfig.any
        (fun kv => decide (aget i.config kv.1 ≠ some (pstr kv.2)))) = false := by
      rw [List.any_eq_false]
      intro kv hm
      simp [hconf kv hm]
    simp [IncusInstance.configure_config, he, get_instance_info_spec, htgt,
      configureCfgLoop_spec p env i.config hrc p.effConfig, hfil, hany,
      Res.bind_eq, Res.bind_ok, Res.pure]
    intro a b hm
    exact hconf (a, b) hm

/-- The instance device loop skips every device already present. -/
theorem configureDevLoop_noop (p : IncusInstance.Params)
    (env : IncusInstance.Env) (cur : List (String × Dict)) :
    ∀ devs, (∀ dv ∈ devs, (aget cur dv.1).isSome = true) →
      IncusInstance.configureDevLoop p env cur devs = ([], Except.ok ())
  | [], _ => by simp [IncusInstance.configureDevLoop, Res.pure]
  | (dn, dc) :: rest, h => by
      have h1 : (aget cur dn).isSome = true := h (dn, dc) (List.mem_cons_self _ _)
      have IH := configureDevLoop_noop p env cur rest
        (fun dv hm => h dv (List.mem_cons_of_mem _ hm))
      simp only [IncusInstance.configureDevLoop, h1, ite_true]
      exact IH

/-- `configure_devices` on an instance that already has every desired
device issues only its read query. -/
theorem configure_devices_noop (p : IncusInstance.Params)
    (env : IncusInstance.Env) (i : IncusInstance.InstanceInfo)
    (htgt : IncusInstance.queryResult p env none = some i)
    (hdev : ∀ dv ∈ p.effDevices, (aget i.devices dv.1).isSome = true) :
    ∃ t, IncusInstance.configure_devices p env = (t, Except.ok ()) ∧
      t.all isReadOnly = true := by
  by_cases he : p.effDevices = []
  · exact ⟨[], by simp [IncusInstance.configure_devices, he, Res.pure], rfl⟩
  · refine ⟨[IncusInstance.queryCmd p none], ?_, by simp [isReadOnly_queryCmd]⟩
    simp [IncusInstance.configure_devices, he, get_instance_info_spec, htgt,
      configureDevLoop_noop p env i.devices p.effDevices hdev,
      Res.bind_eq, Res.bind_ok, Res.pure]

/-- `configure_profiles` on an instance whose sorted profile list equals
the sorted desired list issues only its read query and reports no
change. -/
theorem configure_profiles_noop (p : IncusInstance.Params)
    (env : IncusInstance.Env) (i : IncusInstance.InstanceInfo)
    (htgt : IncusInstance.queryResult p env none = some i)
    (hprof : ∀ ps, p.profiles = some ps → sortStr i.profiles = sortStr ps) :
    ∃ t, IncusInstance.configure_profiles p env = (t, Except.ok false) ∧
      t.all isReadOnly = true := by
  rcases hp : p.profiles with _ | ps
  · exact ⟨[], by simp [IncusInstance.configure_profiles, hp, Res.pure], rfl⟩
  · refine ⟨[IncusInstance.queryCmd p none], ?_, by simp [isReadOnly_queryCmd]⟩
    simp [IncusInstance.configure_profiles, hp, get_instance_info_spec, htgt,
      hprof ps hp, Res.bind_eq, Res.bind_ok, Res.pure]

/-- The tail of the `present` branch with no change pending performs only
the `/state` query and exits `changed=false`. -/
theorem presentFinish_false (p : IncusInstance.Params)
    (env : IncusInstance.Env) :
    IncusInstance.presentFinish p env false =
      ([IncusInstance.stateCmd p],
       Except.error (Outcome.exit false none)) := by
  simp [IncusInstance.presentFinish, get_instance_state_spec, Res.bind_eq,
    Res.bind_ok, Res.bind_error, Res.pure, exitJ]

/-- The started/stopped convergence step is a no-op when the current
status already matches the `started` parameter. -/
theorem presentTail_noop (p : IncusInstance.Params) (env : IncusInstance.Env)
    (i : IncusInstance.InstanceInfo)
    (hstat : (p.started = true → ¬ strLower i.status = "stopped") ∧
      (p.started = false → ¬ strLower i.status = "running")) :
    IncusInstance.presentTail p env false i =
      ([IncusInstance.stateCmd p],
       Except.error (Outcome.exit false none)) := by
  cases hs : p.started
  · have h2 := hstat.2 hs
    simp [IncusInstance.presentTail, hs, h2, presentFinish_false]
  · have h1 := hstat.1 hs
    simp [IncusInstance.presentTail, hs, h1, presentFinish_false]

/-- The `present` branch on an already-conforming instance issues only
read queries and exits `changed=false`. -/
theorem presentBranch_noop (p : IncusInstance.Params)
    (env : IncusInstance.Env) (i : IncusInstance.InstanceInfo)
    (hrc : ∀ c, env.ce.rc c = 0)
    (htgt : IncusInstance.queryResult p env none = some i)
    (hconf : ∀ kv ∈ p.effConfig, aget i.config kv.1 = some (pstr kv.2))
    (hdev : ∀ dv ∈ p.effDevices, (aget i.devices dv.1).isSome = true)
    (hprof : ∀ ps, p.profiles = some ps → sortStr i.profiles = sortStr ps)
    (hstat : (p.started = true → ¬ strLower i.status = "stopped") ∧
      (p.started = false → ¬ strLower i.status = "running")) :
    ∃ t, IncusInstance.presentBranch p env false (some i) =
      (t, Except.error (Outcome.exit false none)) ∧
      t.all isReadOnly = true := by
  obtain ⟨t1, hc1, hr1⟩ := configure_config_noop p env i hrc htgt hconf
  obtain ⟨t2, hc2, hr2⟩ := configure_devices_noop p env i htgt hdev
  obtain ⟨t3, hc3, hr3⟩ := configure_profiles_noop p env i htgt hprof
  refine ⟨t1 ++ (t2 ++ (t3 ++ [IncusInstance.stateCmd p])), ?_, ?_⟩
  · simp only [IncusInstance.presentBranch, Res.bind_eq, hc1, hc2, hc3,
      Res.bind_ok, Bool.or_self, Bool.false_or, Bool.or_false,
      presentTail_noop p env i hstat]
  · simp [List.all_append, hr1, hr2, hr3, isReadOnly_stateCmd]

end ClaimC3lemmas

section ClaimC3

open Incus

/-- Dispatch of an already-conforming `present` run: the existence query
followed by the no-op present branch. -/
theorem finishRun_dispatch_present (p : IncusInstance.Params)
    (env : IncusInstance.Env) (i : IncusInstance.InstanceInfo) (t : Trace)
    (hst : p.state = "present")
    (htgt : IncusInstance.queryResult p env none = some i)
    (hb : IncusInstance.presentBranch p env false (some i) =
      (t, Except.error (Outcome.exit false none))) :
    finishRun (IncusInstance.stateDispatch p env false) =
      (IncusInstance.queryCmd p none :: t, Outcome.exit false none) := by
  unfold IncusInstance.stateDispatch
  rw [Res.bind_eq, get_instance_info_spec, htgt, finishRun_bind_ok]
  simp [hst, hb, finishRun]

/-- Reconciling a `state=present` request against an instance that
already satisfies it reports `changed=false` and issues only read-only
queries. -/
theorem instRun_present_conforming (p : IncusInstance.Params)
    (env : IncusInstance.Env) (i : IncusInstance.InstanceInfo)
    (hst : p.state = "present") (hrc : ∀ c, env.ce.rc c = 0)
    (htgt : IncusInstance.queryResult p env none = some i)
    (hconf : ∀ kv ∈ p.effConfig, aget i.config kv.1 = some (pstr kv.2))
    (hdev : ∀ dv ∈ p.effDevices, (aget i.devices dv.1).isSome = true)
    (hprof : ∀ ps, p.profiles = some ps → sortStr i.profiles = sortStr ps)
    (hstat : (p.started = true → ¬ strLower i.status = "stopped") ∧
      (p.started = false → ¬ strLower i.status = "running")) :
    ∃ t, IncusInstance.run p env = (t, Outcome.exit false none) ∧
      t.all isReadOnly = true := by
  obtain ⟨t, hb, hro⟩ := presentBranch_noop p env i hrc htgt hconf hdev hprof hstat
  have hd := finishRun_dispatch_present p env i t hst htgt hb
  by_cases hrn : strTruthy p.rename_from = true
  · refine ⟨IncusInstance.queryCmd p p.rename_from ::
      IncusInstance.queryCmd p none :: IncusInstance.queryCmd p none :: t, ?_, ?_⟩
    · unfold IncusInstance.run
      rw [Res.bind_eq, instRenameStep_target_exists p env i hst hrn htgt,
        finishRun_bind_ok, hd]
      rfl
    · simp [isReadOnly_queryCmd, hro]
  · refine ⟨IncusInstance.queryCmd p none :: t, ?_, ?_⟩
    · unfold IncusInstance.run
      rw [Res.bind_eq, instRenameStep_skip p env (fun h => hrn h.2),
        finishRun_bind_ok, hd]
      rfl
    · simp [isReadOnly_queryCmd, hro]

/-- Reconciling `state=absent` against a missing instance reports
`changed=false` with only the existence query. -/
theorem instRun_absent_conforming (p : IncusInstance.Params)
    (env : IncusInstance.Env) (hst : p.state = "absent")
    (htgt : IncusInstance.queryResult p env none = none) :
    IncusInstance.run p env =
      ([IncusInstance.queryCmd p none],
       Outcome.exit false (some "Instance already absent")) := by
  unfold IncusInstance.run
  rw [Res.bind_eq, instRenameStep_skip p env
    (fun h => by rw [hst] at h; exact absurd h.1 (by decide)), finishRun_bind_ok]
  unfold IncusInstance.stateDispatch
  rw [Res.bind_eq, get_instance_info_spec, htgt, finishRun_bind_ok]
  simp [hst, IncusInstance.absentBranch, exitJ, finishRun]

/-- `state=frozen` on an already frozen instance reports `changed=false`
with only the existence query. -/
theorem instRun_frozen_conforming (p : IncusInstance.Params)
    (env : IncusInstance.Env) (i : IncusInstance.InstanceInfo)
    (hst : p.state = "frozen")
    (htgt : IncusInstance.queryResult p env none = some i)
    (hfro : strLower i.status = "frozen") :
    IncusInstance.run p env =
      ([IncusInstance.queryCmd p none],
       Outcome.exit false (some "Instance already frozen")) := by
  unfold IncusInstance.run
  rw [Res.bind_eq, instRenameStep_skip p env
    (fun h => by rw [hst] at h; exact absurd h.1 (by decide)), finishRun_bind_ok]
  unfold IncusInstance.stateDispatch
  rw [Res.bind_eq, get_instance_info_spec, htgt, finishRun_bind_ok]
  simp [hst, IncusInstance.frozenBranch, hfro, exitJ, finishRun,
    Res.bind_eq, Res.bind_error]

/-- `state=unfrozen` on an already running instance reports
`changed=false` with only the existence query. -/
theorem instRun_unfrozen_conforming (p : IncusInstance.Params)
    (env : IncusInstance.Env) (i : IncusInstance.InstanceInfo)
    (hst : p.state = "unfrozen")
    (htgt : IncusInstance.queryResult p env none = some i)
    (hrun : strLower i.status = "running") :
    IncusInstance.run p env =
      ([IncusInstance.queryCmd p none],
       Outcome.exit false (some "Instance already running")) := by
  unfold IncusInstance.run
  rw [Res.bind_eq, instRenameStep_skip p env
    (fun h => by rw [hst] at h; exact absurd h.1 (by decide)), finishRun_bind_ok]
  unfold IncusInstance.stateDispatch
  rw [Res.bind_eq, get_instance_info_spec, htgt, finishRun_bind_ok]
  simp [hst, IncusInstance.unfrozenBranch, hrun, exitJ, finishRun,
    Res.bind_eq, Res.bind_error]

/-- `state=restarted` reports `changed=true` on every live run against an
existing instance — including an immediately repeated one. -/
theorem instRun_restarted_always_changed (p : IncusInstance.Params)
    (env : IncusInstance.Env) (i : IncusInstance.InstanceInfo)
    (hst : p.state = "restarted") (hcm : p.check_mode = false)
    (htgt : IncusInstance.queryResult p env none = some i)
    (hrc : ∀ c, env.ce.rc c = 0) :
    (IncusInstance.run p env).2 = Outcome.exit true none := by
  unfold IncusInstance.run
  rw [Res.bind_eq, instRenameStep_skip p env
    (fun h => by rw [hst] at h; exact absurd h.1 (by decide)), finishRun_bind_ok]
  unfold IncusInstance.stateDispatch
  rw [Res.bind_eq, get_instance_info_spec, htgt, finishRun_bind_ok]
  by_cases hs : strLower i.status = "stopped" <;>
    simp [hst, IncusInstance.restartedBranch, hcm, hs,
      IncusInstance.start_instance, IncusInstance.restart_instance,
      IncusInstance.run_command, hrc, get_instance_info_spec,
      get_instance_state_spec, emit, exitJ, finishRun,
      Res.bind_eq, Res.bind_ok, Res.bind_error, Res.pure]

/-- `state=rebuilt` reports `changed=true` on every live run against an
existing instance — including an immediately repeated one. -/
theorem instRun_rebuilt_always_changed (p : IncusInstance.Params)
    (env : IncusInstance.Env) (i : IncusInstance.InstanceInfo)
    (hst : p.state = "rebuilt") (hcm : p.check_mode = false)
    (htgt : IncusInstance.queryResult p env none = some i)
    (hrc : ∀ c, env.ce.rc c = 0) :
    (IncusInstance.run p env).2 = Outcome.exit true none := by
  unfold IncusInstance.run
  rw [Res.bind_eq, instRenameStep_skip p env
    (fun h => by rw [hst] at h; exact absurd h.1 (by decide)), finishRun_bind_ok]
  unfold IncusInstance.stateDispatch
  rw [Res.bind_eq, get_instance_info_spec, htgt, finishRun_bind_ok]
  by_cases hri : strTruthy p.rebuild_image = true <;>
    simp [hst, IncusInstance.rebuiltBranch, hcm, hri,
      IncusInstance.rebuild_instance, IncusInstance.run_command, hrc,
      get_instance_info_spec, get_instance_state_spec, emit, exitJ, finishRun,
      Res.bind_eq, Res.bind_ok, Res.bind_error, Res.pure]

/-- A storage pool whose desired config already matches reconciles to
`changed=false` with only the show query. -/
theorem storRun_conforming (p : IncusStorage.Params) (env : IncusStorage.Env)
    (cur : IncusStorage.PoolData) (hst : p.state = "present")
    (hshow : env.ce.rc (svcCmd p.project
      ["storage", "show", IncusStorage.poolTarget p]) = 0)
    (hpool : env.pool = some cur)
    (hcfg : ∀ kv ∈ p.config, (aget cur.config kv.1).getD "" = pstr kv.2) :
    IncusStorage.run p env =
      ([svcCmd p.project ["storage", "show", IncusStorage.poolTarget p]],
       Outcome.exit false (some "Storage pool already matches configuration")) := by
  simp [IncusStorage.run, IncusStorage.get_pool_info, hshow, hpool, hst,
    IncusStorage.update, updateCfgLoop_noop p env (IncusStorage.poolTarget p)
      cur.config p.config hcfg,
    Res.bind_eq, Res.bind_ok, Res.pure, emit, exitJ, finishRun]

/-- C3 (amended): a second reconciliation starting from a state that
already conforms to the desired one reports `changed=false` and issues no
mutating command, for `incus_instance` with states `present`, `absent`,
`frozen` and `unfrozen`, and for `incus_storage` with `state=present`; so
a converging first call (`changed=true`) is followed by `changed=false`.
The action states `restarted` and `rebuilt` are the exception the
counterexample exhibits: every live call on an existing instance,
including an immediate repeat, reports `changed=true`. -/
theorem C3_idempotence_amended :
    (∀ (p : IncusInstance.Params) (env : IncusInstance.Env)
       (i : IncusInstance.InstanceInfo),
      p.state = "present" → (∀ c, env.ce.rc c = 0) →
      IncusInstance.queryResult p env none = some i →
      (∀ kv ∈ p.effConfig, aget i.config kv.1 = some (pstr kv.2)) →
      (∀ dv ∈ p.effDevices, (aget i.devices dv.1).isSome = true) →
      (∀ ps, p.profiles = some ps → sortStr i.profiles = sortStr ps) →
      ((p.started = true → ¬ strLower i.status = "stopped") ∧
        (p.started = false → ¬ strLower i.status = "running")) →
      ∃ t, IncusInstance.run p env = (t, Outcome.exit false none) ∧
        t.all isReadOnly = true) ∧
    (∀ (p : IncusInstance.Params) (env : IncusInstance.Env),
      p.state = "absent" → IncusInstance.queryResult p env none = none →
      IncusInstance.run p env =
        ([IncusInstance.queryCmd p none],
         Outcome.exit false (some "Instance already absent"))) ∧
    (∀ (p : IncusInstance.Params) (env : IncusInstance.Env)
       (i : IncusInstance.InstanceInfo),
      p.state = "frozen" → IncusInstance.queryResult p env none = some i →
      strLower i.status = "frozen" →
      IncusInstance.run p env =
        ([IncusInstance.queryCmd p none],
         Outcome.exit false (some "Instance already frozen"))) ∧
    (∀ (p : IncusInstance.Params) (env : IncusInstance.Env)
       (i : IncusInstance.InstanceInfo),
      p.state = "unfrozen" → IncusInstance.queryResult p env none = some i →
      strLower i.status = "running" →
      IncusInstance.run p env =
        ([IncusInstance.queryCmd p none],
         Outcome.exit false (some "Instance already running"))) ∧
    (∀ (p : IncusInstance.Params) (env : IncusInstance.Env)
       (i : IncusInstance.InstanceInfo),
      p.state = "restarted" → p.check_mode = false →
      IncusInstance.queryResult p env none = some i → (∀ c, env.ce.rc c = 0) →
      (IncusInstance.run p env).2 = Outcome.exit true none) ∧
    (∀ (p : IncusInstance.Params) (env : IncusInstance.Env)
       (i : IncusInstance.InstanceInfo),
      p.state = "rebuilt" → p.check_mode = false →
      IncusInstance.queryResult p env none = some i → (∀ c, env.ce.rc c = 0) →
      (IncusInstance.run p env).2 = Outcome.exit true none) ∧
    (∀ (p : IncusStorage.Params) (env : IncusStorage.Env)
       (cur : IncusStorage.PoolData),
      p.state = "present" →
      env.ce.rc (svcCmd p.project
        ["storage", "show", IncusStorage.poolTarget p]) = 0 →
      env.pool = some cur →
      (∀ kv ∈ p.config, (aget cur.config kv.1).getD "" = pstr kv.2) →
      IncusStorage.run p env =
        ([svcCmd p.project ["storage", "show", IncusStorage.poolTarget p]],
         Outcome.exit false (some "Storage pool already matches configuration"))) :=
  ⟨fun p env i h1 h2 h3 h4 h5 h6 h7 =>
      instRun_present_conforming p env i h1 h2 h3 h4 h5 h6 h7,
   fun p env h1 h2 => instRun_absent_conforming p env h1 h2,
   fun p env i h1 h2 h3 => instRun_frozen_conforming p env i h1 h2 h3,
   fun p env i h1 h2 h3 => instRun_unfrozen_conforming p env i h1 h2 h3,
   fun p env i h1 h2 h3 h4 => instRun_restarted_always_changed p env i h1 h2 h3 h4,
   fun p env i h1 h2 h3 h4 => instRun_rebuilt_always_changed p env i h1 h2 h3 h4,
   fun p env cur h1 h2 h3 h4 => storRun_conforming p env cur h1 h2 h3 h4⟩

/-- Witness for the amended C3 at concrete inputs: a conforming present
request repeats to `changed=false` over read-only queries, a repeated
restart still reports `changed=true`, and a conforming storage pool
repeats to `changed=false`. -/
theorem C3_idempotence_witness :
    ((IncusInstance.run Scenarios.instC3conf Scenarios.instC3confEnv).2 =
        Outcome.exit false none ∧
      (IncusInstance.run Scenarios.instC3conf
        Scenarios.instC3confEnv).1.all isReadOnly = true) ∧
    (IncusInstance.run Scenarios.instC3p Scenarios.instC3env).2 =
      Outcome.exit true none ∧
    IncusStorage.run Scenarios.storC3p Scenarios.storC3env =
      ([["incus", "--project", "default", "storage", "show", "pool1"]],
       Outcome.exit false (some "Storage pool already matches configuration")) := by
  refine ⟨?_, ?_, ?_⟩
  · obtain ⟨t, heq, hro⟩ := C3_idempotence_amended.1 Scenarios.instC3conf
      Scenarios.instC3confEnv
      { status := "Running", config := [("limits.cpu", "4")],
        devices := [("root", [("type", "disk")])], profiles := ["default"] }
      rfl (fun _ => rfl) (by decide) (by decide) (by decide)
      (by intro ps h
          cases Option.some.inj h
          rfl)
      ⟨fun _ => by decide, fun h => absurd h (by decide)⟩
    rw [heq]
    exact ⟨rfl, hro⟩
  · exact C3_idempotence_amended.2.2.2.2.1 Scenarios.instC3p Scenarios.instC3env
      { status := "Running" } rfl rfl (by decide) (fun _ => rfl)
  · rw [C3_idempotence_amended.2.2.2.2.2.2 Scenarios.storC3p Scenarios.storC3env
      { description := some "d", config := [("size", "10GiB")] }
      rfl (by decide) rfl (by decide)]
    decide

end ClaimC3
